import Mathlib

/-!
Package tsp: descriptive statistics report and chart helpers.

A shallow embedding of `tsp.go`.  The Go type `float64` is an abstract type `F`; the
statistics calls use its comparison and NaN test through the class `Float64`, of which a
linearly ordered type is the instance without NaN and `F64` an instance with NaN.  A
`[]uint8` colour is a list of natural numbers.  Calls into the plotting and statistics
libraries that the package imports are either fields of `Lib` (their result is left
open) or small definitions written after the libraries' documented behaviour.
-/

namespace Tsp

/-! ## Values -/

/-- A Go `error` value, identified by its message. -/
structure GoError where
  msg : String
deriving DecidableEq

/-- A Go run-time panic. -/
inductive Panic where
  | indexOutOfRange (index len : Nat)
  | lib (msg : String)
deriving DecidableEq

/-- The Go type `color.RGBA`. -/
structure RGBA where
  R : Nat
  G : Nat
  B : Nat
  A : Nat
deriving DecidableEq

/-- The Go type `plotter.XY`. -/
structure XY (F : Type) where
  X : F
  Y : F
deriving DecidableEq

/-- The Go type `plotter.Scatter`, with the fields the package touches. -/
structure Scatter (F : Type) where
  XYs : List (XY F)
  Color : RGBA
deriving DecidableEq

/-- The Go type `plotter.Line`, with the fields the package touches. -/
structure Line (F : Type) where
  XYs : List (XY F)
  Color : RGBA
deriving DecidableEq

/-- The Go type `plotter.Histogram`: the values it was built from, the number of bins
asked for, and the sum it was last normalised to. -/
structure Histogram (F : Type) where
  values : List F
  bins : Nat
  normalized : Option Nat
deriving DecidableEq

/-- Something that can be added to a plot (`plot.Plotter`). -/
inductive Plotter (F : Type) where
  | scatter (s : Scatter F)
  | line (l : Line F)
  | hist (h : Histogram F)
deriving DecidableEq

/-- The Go type `plot.Plot`, with the fields the package touches. -/
structure Plot (F : Type) where
  Title : String
  XLabel : String
  YLabel : String
  Legend : List (String × Plotter F)
  plotters : List (Plotter F)
deriving DecidableEq

/-- A `vg.Length`, counted in centimetres. -/
structure Length where
  cm : Nat
deriving DecidableEq

/-- The constant `vg.Centimeter`. -/
def Centimeter : Length := ⟨1⟩

/-- Product `k*vg.Centimeter`. -/
def Length.scale (k : Nat) (l : Length) : Length := ⟨k * l.cm⟩

/-- An image file written by `p.Save(w, h, name)`. -/
structure File (F : Type) where
  name : String
  w : Length
  h : Length
  plot : Plot F
deriving DecidableEq

/-- One line handed to the standard logger. -/
inductive LogLine (F : Type) where
  | printfS (format : String) (arg : String)
  | printfF (format : String) (arg : F)
  | fatal (e : GoError)
deriving DecidableEq

/-- What a run can observe and change outside the call: the log and the files saved. -/
structure World (F : Type) where
  log : List (LogLine F)
  files : List (File F)
deriving DecidableEq

/-- The world before a call: nothing logged, nothing saved. -/
def World.init {F : Type} : World F := ⟨[], []⟩

/-- The library calls whose result the package does not determine. -/
structure Lib (F : Type) where
  /-- Error of `plot.New()`, if any. -/
  plotNewErr : Option GoError
  /-- Error of `plotter.NewScatter(pv)`, if any. -/
  newScatterErr : List (XY F) → Option GoError
  /-- Error of `plotter.NewLine(pv)`, if any. -/
  newLineErr : List (XY F) → Option GoError
  /-- Error of `plotter.NewHist(pv, n)`, if any. -/
  newHistErr : List F → Nat → Option GoError
  /-- Error of `p.Save(w, h, name)`, if any. -/
  saveErr : Plot F → Length → Length → String → Option GoError
  /-- Colour a fresh scatter or line carries before the package sets it. -/
  defaultColor : RGBA
  /-- Value of `stat.Mean(x, nil)`. -/
  statMean : List F → F
  /-- Value pair of `stat.Mode(x, nil)`. -/
  statMode : List F → F × F
  /-- Value of `stat.Variance(x, nil)`. -/
  statVariance : List F → F
  /-- Value of `stat.StdDev(x, nil)`. -/
  statStdDev : List F → F
  /-- Value of `stats.Mean(x)` on a non-empty input. -/
  statsMean : List F → F
  /-- Floating-point subtraction. -/
  sub : F → F → F

/-! ## Control flow -/

/-- How a statement ends: normally with a value, by `log.Fatal` (the process exits), or
by a run-time panic. -/
inductive Res (α : Type) where
  | ok (a : α)
  | fatal (e : GoError)
  | panic (p : Panic)
deriving DecidableEq

/-- A statement: it runs in a world and ends in some way, leaving a world. -/
def Prog (F : Type) (α : Type) : Type := World F → Res α × World F

/-- Sequencing: the second statement runs only when the first ended normally. -/
def Prog.bind {F α β : Type} (x : Prog F α) (f : α → Prog F β) : Prog F β :=
  fun w =>
    match x w with
    | (Res.ok a, w1) => f a w1
    | (Res.fatal e, w1) => (Res.fatal e, w1)
    | (Res.panic p, w1) => (Res.panic p, w1)

instance (F : Type) : Monad (Prog F) where
  pure a := fun w => (Res.ok a, w)
  bind := Prog.bind

/-- Statement `log.Printf(format, arg)` with a string argument. -/
def logPrintfS {F : Type} (format arg : String) : Prog F Unit :=
  fun w => (Res.ok (), { w with log := w.log ++ [LogLine.printfS format arg] })

/-- Statement `log.Printf(format, arg)` with a `float64` argument. -/
def logPrintfF {F : Type} (format : String) (arg : F) : Prog F Unit :=
  fun w => (Res.ok (), { w with log := w.log ++ [LogLine.printfF format arg] })

/-- Statement `log.Fatal(err)`: the error is logged and the process exits. -/
def logFatal {F α : Type} (err : GoError) : Prog F α :=
  fun w => (Res.fatal err, { w with log := w.log ++ [LogLine.fatal err] })

/-- A run-time panic. -/
def throwPanic {F α : Type} (p : Panic) : Prog F α :=
  fun w => (Res.panic p, w)

/-- A call that touches neither the log nor the files and may panic. -/
def liftExcept {F α : Type} (x : Except Panic α) : Prog F α :=
  match x with
  | Except.ok a => pure a
  | Except.error p => throwPanic p

/-- Function `checkErr`, taken together with the value the checked call returned beside
its error: a non-nil error is fatal, otherwise the run goes on with the value. -/
def checkErr {F α : Type} (r : Except GoError α) : Prog F α :=
  match r with
  | Except.error err => logFatal err
  | Except.ok a => pure a

/-! ## The colour table -/

/-- The package variable `Colors`, entries in source order. -/
def Colors : List (String × List Nat) :=
  [ ("Blue", [52, 152, 219, 255]),
    ("Red", [231, 76, 60, 255]),
    ("Green", [22, 160, 133, 255]),
    ("Turquoise", [26, 188, 156, 255]),
    ("Amethist", [155, 89, 182, 255]),
    ("Asphalt", [52, 73, 94, 255]),
    ("Orange", [211, 84, 0, 255]) ]

/-- Map read `Colors[name]` (the comma-ok form). -/
def Colors.get (name : String) : Option (List Nat) :=
  (Colors.find? (fun e => e.1 == name)).map Prod.snd

/-! ## Plot builders -/

section Builders

variable {F : Type} [Zero F]

/-- Slice read `s[i]`: a panic when `i` is out of range. -/
def index {α : Type} (s : List α) (i : Nat) : Except Panic α :=
  match s[i]? with
  | some a => Except.ok a
  | none => Except.error (Panic.indexOutOfRange i s.length)

/-- Expression `make(plotter.XYs, n)`. -/
def makeXYs (n : Nat) : List (XY F) := List.replicate n ⟨0, 0⟩

/-- Assignment `pv[i].X = val`. -/
def setX (pv : List (XY F)) (i : Nat) (val : F) : Except Panic (List (XY F)) := do
  let q ← index pv i
  pure (pv.set i { q with X := val })

/-- Assignment `pv[i].Y = val`. -/
def setY (pv : List (XY F)) (i : Nat) (val : F) : Except Panic (List (XY F)) := do
  let q ← index pv i
  pure (pv.set i { q with Y := val })

/-- The loop of `buildScatter` (and of `PlotScatterXY1Var`):
`for i, val := range x { pv[i].X = val; pv[i].Y = y[i] }`, entered at index `i` with the
elements of `x` still to visit. -/
def scatterLoop (y : List F) : List F → Nat → List (XY F) → Except Panic (List (XY F))
  | [], _, pv => pure pv
  | val :: rest, i, pv => do
    let pv ← setX pv i val
    let yi ← index y i
    let pv ← setY pv i yi
    scatterLoop y rest (i + 1) pv

/-- The loop of `buildLine`:
`for i, val := range v { pv[i].X = t[i]; pv[i].Y = val }`. -/
def lineLoop (t : List F) : List F → Nat → List (XY F) → Except Panic (List (XY F))
  | [], _, pv => pure pv
  | val :: rest, i, pv => do
    let ti ← index t i
    let pv ← setX pv i ti
    let pv ← setY pv i val
    lineLoop t rest (i + 1) pv

/-- Call `plotter.NewScatter(pv)`: an error, or a scatter over a copy of the points. -/
def NewScatter (lib : Lib F) (pv : List (XY F)) : Except GoError (Scatter F) :=
  match lib.newScatterErr pv with
  | some err => Except.error err
  | none => Except.ok { XYs := pv, Color := lib.defaultColor }

/-- Call `plotter.NewLine(pv)`: an error, or a line over a copy of the points. -/
def NewLine (lib : Lib F) (pv : List (XY F)) : Except GoError (Line F) :=
  match lib.newLineErr pv with
  | some err => Except.error err
  | none => Except.ok { XYs := pv, Color := lib.defaultColor }

/-- Composite literal `color.RGBA{R: c[0], G: c[1], B: c[2], A: c[3]}`. -/
def rgbaOf (c : List Nat) : Except Panic RGBA := do
  let r ← index c 0
  let g ← index c 1
  let b ← index c 2
  let a ← index c 3
  pure { R := r, G := g, B := b, A := a }

/-- Function `buildScatter`.  The outer result is a panic or the returned pair
`(s, err)`, the pair being an error or a scatter. -/
def buildScatter (lib : Lib F) (x y : List F) (c : List Nat) :
    Except Panic (Except GoError (Scatter F)) := do
  let pv ← scatterLoop y x 0 (makeXYs x.length)
  match NewScatter lib pv with
  | Except.error err => pure (Except.error err)
  | Except.ok s =>
    let col ← rgbaOf c
    pure (Except.ok { s with Color := col })

/-- Function `buildLine`.  The outer result is a panic or the returned pair
`(l, err)`, the pair being an error or a line. -/
def buildLine (lib : Lib F) (t v : List F) (c : List Nat) :
    Except Panic (Except GoError (Line F)) := do
  let pv ← lineLoop t v 0 (makeXYs v.length)
  match NewLine lib pv with
  | Except.error err => pure (Except.error err)
  | Except.ok l =>
    let col ← rgbaOf c
    pure (Except.ok { l with Color := col })

end Builders

/-! ## Renderers -/

section Renderers

variable {F : Type} [Zero F]

/-- Call `plot.New()`: an error, or a fresh plot with no title, no axis labels, an empty
legend and nothing added. -/
def New (lib : Lib F) : Except GoError (Plot F) :=
  match lib.plotNewErr with
  | some err => Except.error err
  | none => Except.ok { Title := "", XLabel := "", YLabel := "", Legend := [], plotters := [] }

/-- Call `plotter.NewHist(pv, n)`: an error, or a histogram of the values. -/
def NewHist (lib : Lib F) (pv : List F) (n : Nat) : Except GoError (Histogram F) :=
  match lib.newHistErr pv n with
  | some err => Except.error err
  | none => Except.ok { values := pv, bins := n, normalized := none }

/-- Method `h.Normalize(sum)`. -/
def Histogram.Normalize (h : Histogram F) (sum : Nat) : Histogram F :=
  { h with normalized := some sum }

/-- Method `p.Add(ps...)`. -/
def Plot.Add (p : Plot F) (ps : List (Plotter F)) : Plot F :=
  { p with plotters := p.plotters ++ ps }

/-- Method `p.Legend.Add(name, thumb)`. -/
def Plot.LegendAdd (p : Plot F) (name : String) (thumb : Plotter F) : Plot F :=
  { p with Legend := p.Legend ++ [(name, thumb)] }

/-- Method `p.Save(w, h, file)`: the error is the result; without an error the file is
written, and a save that fails is taken to leave no file. -/
def Plot.Save (lib : Lib F) (p : Plot F) (w h : Length) (file : String) :
    Prog F (Option GoError) :=
  fun world =>
    match lib.saveErr p w h file with
    | some err => (Res.ok (some err), world)
    | none => (Res.ok none, { world with files := world.files ++ [⟨file, w, h, p⟩] })

/-- The tail every renderer shares:
`if err := p.Save(w, h, title+".png"); err != nil { return err }; return nil`. -/
def saveAndReturn (lib : Lib F) (p : Plot F) (w h : Length) (title : String) :
    Prog F (Option GoError) := do
  let err ← Plot.Save lib p w h (title ++ ".png")
  match err with
  | some err => pure (some err)
  | none => pure none

/-- The loop of `PlotHistogram`: `for i, val := range v { pv[i] = val }`. -/
def histLoop : List F → Nat → List F → Except Panic (List F)
  | [], _, pv => pure pv
  | val :: rest, i, pv => do
    let _ ← index pv i
    histLoop rest (i + 1) (pv.set i val)

/-- Function `PlotHistogram`; the value is the returned error. -/
def PlotHistogram (lib : Lib F) (v : List F) (title : String) : Prog F (Option GoError) := do
  logPrintfS "Plotting %s.png" title
  match New lib with
  | Except.error err => pure (some err)
  | Except.ok p =>
    let p := { p with Title := title }
    let pv ← liftExcept (histLoop v 0 (List.replicate v.length 0))
    match NewHist lib pv 100 with
    | Except.error err => pure (some err)
    | Except.ok h =>
      let h := h.Normalize 1
      let p := p.Add [Plotter.hist h]
      saveAndReturn lib p (Length.scale 15 Centimeter) (Length.scale 15 Centimeter) title

/-- Function `PlotScatterXY1Var`; the value is the returned error. -/
def PlotScatterXY1Var (lib : Lib F) (x1 y1 : List F) (c1 : List Nat) (title : String) :
    Prog F (Option GoError) := do
  logPrintfS "Plotting %s.png" title
  match New lib with
  | Except.error err => pure (some err)
  | Except.ok p =>
    let p := { p with Title := title }
    let p := { p with XLabel := "x" }
    let p := { p with YLabel := "y" }
    let _ ← liftExcept (scatterLoop y1 x1 0 (makeXYs x1.length))
    let r1 ← liftExcept (buildScatter lib x1 y1 c1)
    let s1 ← checkErr r1
    let p := p.LegendAdd "x1, y1" (Plotter.scatter s1)
    let p := p.Add [Plotter.scatter s1]
    saveAndReturn lib p (Length.scale 30 Centimeter) (Length.scale 15 Centimeter) title

/-- Function `PlotScatterXY2Var`; the value is the returned error. -/
def PlotScatterXY2Var (lib : Lib F) (x1 y1 x2 y2 : List F) (c1 c2 : List Nat)
    (title : String) : Prog F (Option GoError) := do
  logPrintfS "Plotting %s.png" title
  match New lib with
  | Except.error err => pure (some err)
  | Except.ok p =>
    let p := { p with Title := title }
    let p := { p with XLabel := "x" }
    let p := { p with YLabel := "y" }
    let r1 ← liftExcept (buildScatter lib x1 y1 c1)
    let s1 ← checkErr r1
    let r2 ← liftExcept (buildScatter lib x2 y2 c2)
    let s2 ← checkErr r2
    let p := p.LegendAdd "x1, y1" (Plotter.scatter s1)
    let p := p.LegendAdd "x2, y2" (Plotter.scatter s2)
    let p := p.Add [Plotter.scatter s1, Plotter.scatter s2]
    saveAndReturn lib p (Length.scale 30 Centimeter) (Length.scale 15 Centimeter) title

/-- Function `PlotScatterXY3Var`; the value is the returned error. -/
def PlotScatterXY3Var (lib : Lib F) (x1 y1 x2 y2 x3 y3 : List F) (c1 c2 c3 : List Nat)
    (title : String) : Prog F (Option GoError) := do
  logPrintfS "Plotting %s.png" title
  match New lib with
  | Except.error err => pure (some err)
  | Except.ok p =>
    let p := { p with Title := title }
    let p := { p with XLabel := "x" }
    let p := { p with YLabel := "y" }
    let r1 ← liftExcept (buildScatter lib x1 y1 c1)
    let s1 ← checkErr r1
    let r2 ← liftExcept (buildScatter lib x2 y2 c2)
    let s2 ← checkErr r2
    let r3 ← liftExcept (buildScatter lib x3 y3 c3)
    let s3 ← checkErr r3
    let p := p.LegendAdd "x1, y1" (Plotter.scatter s1)
    let p := p.LegendAdd "x2, y2" (Plotter.scatter s2)
    let p := p.LegendAdd "x3, y3" (Plotter.scatter s3)
    let p := p.Add [Plotter.scatter s1, Plotter.scatter s2, Plotter.scatter s3]
    saveAndReturn lib p (Length.scale 30 Centimeter) (Length.scale 15 Centimeter) title

/-- Function `PlotTime1Vals`; the value is the returned error. -/
def PlotTime1Vals (lib : Lib F) (timestamp v1 : List F) (c1 : List Nat) (title : String) :
    Prog F (Option GoError) := do
  logPrintfS "Plotting %s.png" title
  match New lib with
  | Except.error err => pure (some err)
  | Except.ok p =>
    let p := { p with Title := title }
    let p := { p with XLabel := "x" }
    let p := { p with YLabel := "y" }
    let r1 ← liftExcept (buildLine lib timestamp v1 c1)
    let l1 ← checkErr r1
    let p := p.Add [Plotter.line l1]
    let p := p.LegendAdd "v1" (Plotter.line l1)
    saveAndReturn lib p (Length.scale 60 Centimeter) (Length.scale 15 Centimeter) title

/-- Function `PlotTime2Vals`; the value is the returned error. -/
def PlotTime2Vals (lib : Lib F) (timestamp v1 v2 : List F) (c1 c2 : List Nat)
    (title : String) : Prog F (Option GoError) := do
  logPrintfS "Plotting %s.png" title
  match New lib with
  | Except.error err => pure (some err)
  | Except.ok p =>
    let p := { p with Title := title }
    let p := { p with XLabel := "x" }
    let p := { p with YLabel := "y" }
    let r1 ← liftExcept (buildLine lib timestamp v1 c1)
    let l1 ← checkErr r1
    let r2 ← liftExcept (buildLine lib timestamp v2 c2)
    let l2 ← checkErr r2
    let p := p.Add [Plotter.line l1, Plotter.line l2]
    let p := p.LegendAdd "v1" (Plotter.line l1)
    let p := p.LegendAdd "v2" (Plotter.line l2)
    saveAndReturn lib p (Length.scale 60 Centimeter) (Length.scale 15 Centimeter) title

/-- Function `PlotTime3Vals`; the value is the returned error. -/
def PlotTime3Vals (lib : Lib F) (timestamp v1 v2 v3 : List F) (c1 c2 c3 : List Nat)
    (title : String) : Prog F (Option GoError) := do
  logPrintfS "Plotting %s.png" title
  match New lib with
  | Except.error err => pure (some err)
  | Except.ok p =>
    let p := { p with Title := title }
    let p := { p with XLabel := "x" }
    let p := { p with YLabel := "y" }
    let r1 ← liftExcept (buildLine lib timestamp v1 c1)
    let l1 ← checkErr r1
    let r2 ← liftExcept (buildLine lib timestamp v2 c2)
    let l2 ← checkErr r2
    let r3 ← liftExcept (buildLine lib timestamp v3 c3)
    let l3 ← checkErr r3
    let p := p.Add [Plotter.line l1, Plotter.line l2, Plotter.line l3]
    let p := p.LegendAdd "v1" (Plotter.line l1)
    let p := p.LegendAdd "v2" (Plotter.line l2)
    let p := p.LegendAdd "v3" (Plotter.line l3)
    saveAndReturn lib p (Length.scale 60 Centimeter) (Length.scale 15 Centimeter) title

end Renderers

/-! ## Statistics library calls -/

/-- What the statistics libraries use of `float64`: the comparison `a < b`, the test
`math.IsNaN` and the value `math.NaN()`.  A comparison with NaN on either side is
false. -/
class Float64 (F : Type) where
  /-- Comparison `a < b`. -/
  lt : F → F → Bool
  /-- Test `math.IsNaN(a)`. -/
  isNaN : F → Bool
  /-- Value `math.NaN()`. -/
  nan : F

/-- Samples without NaN: a linearly ordered type is a carrier in which no value is NaN;
the value standing for `math.NaN()` is then never produced. -/
instance floatOfLinearOrder (F : Type) [LinearOrder F] [Zero F] : Float64 F where
  lt a b := decide (a < b)
  isNaN _ := false
  nan := 0

/-- A `float64` that is NaN or a finite value, here an integer: enough to run the
definitions on a slice that holds NaN. -/
inductive F64 where
  | nan
  | fin (v : Int)
deriving DecidableEq

/-- The comparison and NaN test of `float64` on `F64`. -/
instance floatF64 : Float64 F64 where
  lt a b :=
    match a, b with
    | F64.fin x, F64.fin y => decide (x < y)
    | _, _ => false
  isNaN a :=
    match a with
    | F64.nan => true
    | F64.fin _ => false
  nan := F64.nan

section StatsLib

variable {F : Type} [Float64 F]

/-- Modelled from the spec: the error `stats.EmptyInputErr` of the statistics library
(not under src/), the failure of the median computation on an empty sequence. -/
def EmptyInputErr : GoError := ⟨"Input must not be empty."⟩

/-- Modelled from the spec: the inner loop of the insertion sort of `sort.Sort`
(library, not under src/),
`for j := i; j > a && data.Less(j, j-1); j-- { data.Swap(j, j-1) }`: the element `v` at
index `i` moves down past every element it is less than.  The elements before `i` are
given last first, and so is the result. -/
def sortInsert {α : Type} (less : α → α → Bool) (v : α) : List α → List α
  | [] => [v]
  | u :: rest => if less v u then u :: sortInsert less v rest else v :: u :: rest

/-- Modelled from the spec: `sort.Sort` (library, not under src/) as its insertion sort,
`for i := a + 1; i < b; i++ { ... }`, which is what it runs on a slice of at most twelve
elements; on a longer slice its other phases give the same slice whenever `less` is a
total order. -/
def insertionSort {α : Type} (less : α → α → Bool) (data : List α) : List α :=
  (data.foldl (fun sorted v => sortInsert less v sorted) []).reverse

/-- Modelled from the spec: `sort.Float64Slice.Less` (library, not under src/),
`x[i] < x[j] || (isNaN(x[i]) && !isNaN(x[j]))`. -/
def float64Less (a b : F) : Bool :=
  Float64.lt a b || (Float64.isNaN a && !Float64.isNaN b)

/-- Modelled from the spec: `sortedCopy` of the statistics library (not under src/): a
copy of the input sorted by `sort.Float64s`. -/
def sortedCopy (input : List F) : List F := insertionSort float64Less input

/-- Modelled from the spec: `stats.Median` of the statistics library (not under src/).
It works on a sorted copy of its input, fails on the empty sequence, and otherwise
gives the middle element, or the mean of the two middle elements. -/
def Median (lib : Lib F) (input : List F) : Except GoError F :=
  let c := sortedCopy input
  let l := c.length
  if l = 0 then Except.error EmptyInputErr
  else if l % 2 = 0 then Except.ok (lib.statsMean ((c.drop (l / 2 - 1)).take 2))
  else Except.ok (c.getD (l / 2) Float64.nan)

/-- Modelled from the spec: the loop of `floats.MinIdx` (library, not under src/) over
the elements still to visit, with the minimum so far (none while it is still NaN, that
is before the first element that is not NaN) and its index:
`if math.IsNaN(v) { continue }; if v < min || math.IsNaN(min) { min = v; ind = i }`. -/
def minIdxLoop : List F → Nat → Option F → Nat → Nat
  | [], _, _, ind => ind
  | v :: rest, i, cur, ind =>
    if Float64.isNaN v then minIdxLoop rest (i + 1) cur ind
    else
      match cur with
      | none => minIdxLoop rest (i + 1) (some v) i
      | some m =>
        if Float64.lt v m then minIdxLoop rest (i + 1) (some v) i
        else minIdxLoop rest (i + 1) (some m) ind

/-- Modelled from the spec: `floats.Min` (library, not under src/), the minimum of the
slice; it panics on an empty slice. -/
def Min (s : List F) : Except Panic F :=
  if s.length = 0 then Except.error (Panic.lib "floats: zero length slice")
  else index s (minIdxLoop s 0 none 0)

/-- Modelled from the spec: the loop of `floats.MaxIdx` (library, not under src/):
`if math.IsNaN(v) { continue }; if v > max || math.IsNaN(max) { max = v; ind = i }`. -/
def maxIdxLoop : List F → Nat → Option F → Nat → Nat
  | [], _, _, ind => ind
  | v :: rest, i, cur, ind =>
    if Float64.isNaN v then maxIdxLoop rest (i + 1) cur ind
    else
      match cur with
      | none => maxIdxLoop rest (i + 1) (some v) i
      | some m =>
        if Float64.lt m v then maxIdxLoop rest (i + 1) (some v) i
        else maxIdxLoop rest (i + 1) (some m) ind

/-- Modelled from the spec: `floats.Max` (library, not under src/), the maximum of the
slice; it panics on an empty slice. -/
def Max (s : List F) : Except Panic F :=
  if s.length = 0 then Except.error (Panic.lib "floats: zero length slice")
  else index s (maxIdxLoop s 0 none 0)

/-- Modelled from the spec: `floats.Argsort(dst, inds)` (library, not under src/).  It
panics when the lengths differ; otherwise it fills `inds` with the positions and runs
`sort.Sort` on the pairs, comparing `dst[i] < dst[j]` and swapping both slices, so that
`dst` is sorted in place.  The value is the pair of slices after the call. -/
def Argsort (dst : List F) (inds : List Nat) : Except Panic (List F × List Nat) :=
  if dst.length ≠ inds.length then
    Except.error (Panic.lib "floats: destination slice length does not match input")
  else
    let a := insertionSort (fun p q : F × Nat => Float64.lt p.1 q.1)
      (dst.zip (List.range dst.length))
    Except.ok (a.map Prod.fst, a.map Prod.snd)

/-- Modelled from the spec: the loop of the empirical quantile of `stat.Quantile`
(library, not under src/): the first element at which the running count reaches
`p` times the sample size, `p` being `num/den`. -/
def empiricalQuantile (num den n : Nat) : Nat → List F → Except Panic F
  | _, [] => Except.error (Panic.lib "impossible")
  | cumsum, xi :: rest =>
    if num * n ≤ (cumsum + 1) * den then Except.ok xi
    else empiricalQuantile num den n (cumsum + 1) rest

/-- Modelled from the spec: `floats.HasNaN` (library, not under src/). -/
def HasNaN (s : List F) : Bool := s.any Float64.isNaN

/-- Modelled from the spec: `sort.Float64sAreSorted` (library, not under src/): no element
is less than the one before it. -/
def Float64sAreSorted : List F → Bool
  | [] => true
  | [_] => true
  | a :: b :: rest => if float64Less b a then false else Float64sAreSorted (b :: rest)

/-- Modelled from the spec: `stat.Quantile(p, stat.Empirical, x, nil)` (library, not
under src/) for `p = num/den`.  It panics when `p` is outside `[0, 1]` and when `x` is
empty, gives NaN when `x` holds a NaN, and panics when `x` is not sorted. -/
def Quantile (num den : Nat) (x : List F) : Except Panic F :=
  if ¬ (num ≤ den ∧ 0 < den) then Except.error (Panic.lib "stat: percentile out of bounds")
  else if x.length = 0 then Except.error (Panic.lib "stat: zero length slice")
  else if HasNaN x then Except.ok Float64.nan
  else if Float64sAreSorted x = false then Except.error (Panic.lib "x data are not sorted")
  else empiricalQuantile num den x.length 0 x

end StatsLib

/-! ## The statistics report -/

section Report

variable {F : Type} [Float64 F]

/-- Function `Stats`.  The value is the content of the caller's slice `data` when the
function returns. -/
def Stats (lib : Lib F) (data : List F) : Prog F (List F) := do
  let meanVal := lib.statMean data
  let (modeVal, modeCount) := lib.statMode data
  let medianVal ← checkErr (Median lib data)
  let minVal ← liftExcept (Min data)
  let maxVal ← liftExcept (Max data)
  let rangeVal := lib.sub maxVal minVal
  let varianceVal := lib.statVariance data
  let stdDevVal := lib.statStdDev data
  let inds := List.replicate data.length 0
  let (data, _) ← liftExcept (Argsort data inds)
  let quant25 ← liftExcept (Quantile 25 100 data)
  let quant50 ← liftExcept (Quantile 50 100 data)
  let quant75 ← liftExcept (Quantile 75 100 data)
  logPrintfF "Mean: %0.2f" meanVal
  logPrintfF "Mode val: %0.2f" modeVal
  logPrintfF "Mode cnt: %0.2f" modeCount
  logPrintfF "Median: %0.2f" medianVal
  logPrintfF "Min: %0.2f" minVal
  logPrintfF "Max: %0.2f" maxVal
  logPrintfF "Range: %0.2f" rangeVal
  logPrintfF "Variance: %0.2f" varianceVal
  logPrintfF "Standard Deviation: %0.2f" stdDevVal
  logPrintfF "25%% quantile: %0.2f" quant25
  logPrintfF "50%% quantile: %0.2f" quant50
  logPrintfF "75%% quantile: %0.2f" quant75
  pure data

end Report

/-! ## The six series renderers as one family -/

section Calls

variable {F : Type} [Zero F]

/-- A call of one of the six scatter and time-series renderers, with its arguments. -/
inductive Call (F : Type) where
  | scatter1 (x1 y1 : List F) (c1 : List Nat) (title : String)
  | scatter2 (x1 y1 x2 y2 : List F) (c1 c2 : List Nat) (title : String)
  | scatter3 (x1 y1 x2 y2 x3 y3 : List F) (c1 c2 c3 : List Nat) (title : String)
  | time1 (timestamp v1 : List F) (c1 : List Nat) (title : String)
  | time2 (timestamp v1 v2 : List F) (c1 c2 : List Nat) (title : String)
  | time3 (timestamp v1 v2 v3 : List F) (c1 c2 c3 : List Nat) (title : String)

/-- The renderer the call names, applied to the call's arguments. -/
def Call.run (lib : Lib F) : Call F → Prog F (Option GoError)
  | Call.scatter1 x1 y1 c1 title => PlotScatterXY1Var lib x1 y1 c1 title
  | Call.scatter2 x1 y1 x2 y2 c1 c2 title => PlotScatterXY2Var lib x1 y1 x2 y2 c1 c2 title
  | Call.scatter3 x1 y1 x2 y2 x3 y3 c1 c2 c3 title =>
    PlotScatterXY3Var lib x1 y1 x2 y2 x3 y3 c1 c2 c3 title
  | Call.time1 timestamp v1 c1 title => PlotTime1Vals lib timestamp v1 c1 title
  | Call.time2 timestamp v1 v2 c1 c2 title => PlotTime2Vals lib timestamp v1 v2 c1 c2 title
  | Call.time3 timestamp v1 v2 v3 c1 c2 c3 title =>
    PlotTime3Vals lib timestamp v1 v2 v3 c1 c2 c3 title

/-- The title argument of the call. -/
def Call.title : Call F → String
  | Call.scatter1 _ _ _ title => title
  | Call.scatter2 _ _ _ _ _ _ title => title
  | Call.scatter3 _ _ _ _ _ _ _ _ _ title => title
  | Call.time1 _ _ _ title => title
  | Call.time2 _ _ _ _ _ title => title
  | Call.time3 _ _ _ _ _ _ _ title => title

/-- Whether the call is one of the three scatter renderers. -/
def Call.isScatter : Call F → Bool
  | Call.scatter1 _ _ _ _ => true
  | Call.scatter2 _ _ _ _ _ _ _ => true
  | Call.scatter3 _ _ _ _ _ _ _ _ _ _ => true
  | _ => false

/-- A built scatter, as something to plot. -/
def scatterPlotter (r : Except Panic (Except GoError (Scatter F))) :
    Except Panic (Except GoError (Plotter F)) :=
  r.map (fun b => b.map Plotter.scatter)

/-- A built line, as something to plot. -/
def linePlotter (r : Except Panic (Except GoError (Line F))) :
    Except Panic (Except GoError (Plotter F)) :=
  r.map (fun b => b.map Plotter.line)

/-- The series of the call in the order supplied: each supplied colour with the outcome
of the builder call the renderer makes for that series. -/
def Call.series (lib : Lib F) : Call F → List (List Nat × Except Panic (Except GoError (Plotter F)))
  | Call.scatter1 x1 y1 c1 _ => [(c1, scatterPlotter (buildScatter lib x1 y1 c1))]
  | Call.scatter2 x1 y1 x2 y2 c1 c2 _ =>
    [(c1, scatterPlotter (buildScatter lib x1 y1 c1)),
     (c2, scatterPlotter (buildScatter lib x2 y2 c2))]
  | Call.scatter3 x1 y1 x2 y2 x3 y3 c1 c2 c3 _ =>
    [(c1, scatterPlotter (buildScatter lib x1 y1 c1)),
     (c2, scatterPlotter (buildScatter lib x2 y2 c2)),
     (c3, scatterPlotter (buildScatter lib x3 y3 c3))]
  | Call.time1 timestamp v1 c1 _ => [(c1, linePlotter (buildLine lib timestamp v1 c1))]
  | Call.time2 timestamp v1 v2 c1 c2 _ =>
    [(c1, linePlotter (buildLine lib timestamp v1 c1)),
     (c2, linePlotter (buildLine lib timestamp v2 c2))]
  | Call.time3 timestamp v1 v2 v3 c1 c2 c3 _ =>
    [(c1, linePlotter (buildLine lib timestamp v1 c1)),
     (c2, linePlotter (buildLine lib timestamp v2 c2)),
     (c3, linePlotter (buildLine lib timestamp v3 c3))]

/-- The series supplied to the call, in order, each as the sequence of first
coordinates, the sequence of second coordinates and the colour; for a time series the
first coordinates are the timestamps. -/
def Call.supplied : Call F → List (List F × List F × List Nat)
  | Call.scatter1 x1 y1 c1 _ => [(x1, y1, c1)]
  | Call.scatter2 x1 y1 x2 y2 c1 c2 _ => [(x1, y1, c1), (x2, y2, c2)]
  | Call.scatter3 x1 y1 x2 y2 x3 y3 c1 c2 c3 _ => [(x1, y1, c1), (x2, y2, c2), (x3, y3, c3)]
  | Call.time1 timestamp v1 c1 _ => [(timestamp, v1, c1)]
  | Call.time2 timestamp v1 v2 c1 c2 _ => [(timestamp, v1, c1), (timestamp, v2, c2)]
  | Call.time3 timestamp v1 v2 v3 c1 c2 c3 _ =>
    [(timestamp, v1, c1), (timestamp, v2, c2), (timestamp, v3, c3)]

/-- The conditions on a supplied series under which its builder can return it: the
colour has at least four components, the sequence the loop indexes is no shorter than the
one it ranges over, and the library constructor accepts the points. -/
def seriesAccepted (lib : Lib F) (scatter : Bool) (x y : List F) (c : List Nat) : Prop :=
  4 ≤ c.length ∧
    if scatter then x.length ≤ y.length ∧ lib.newScatterErr (List.zipWith XY.mk x y) = none
    else y.length ≤ x.length ∧ lib.newLineErr (List.zipWith XY.mk x y) = none

/-- The colour RGBA(c[0], c[1], c[2], c[3]) of a colour sequence of at least four
components. -/
def colourOf (c : List Nat) : RGBA := ⟨c.getD 0 0, c.getD 1 0, c.getD 2 0, c.getD 3 0⟩

/-- The series the specification expects of a supplied series: its points pair the two
coordinate sequences by index and its colour is that of the supplied colour. -/
def expectedSeries (scatter : Bool) (x y : List F) (c : List Nat) : Plotter F :=
  if scatter then Plotter.scatter ⟨List.zipWith XY.mk x y, colourOf c⟩
  else Plotter.line ⟨List.zipWith XY.mk x y, colourOf c⟩

/-- The builder call a renderer of the given kind makes for a supplied series. -/
def buildSeries (lib : Lib F) (scatter : Bool) (x y : List F) (c : List Nat) :
    Except Panic (Except GoError (Plotter F)) :=
  if scatter then scatterPlotter (buildScatter lib x y c)
  else linePlotter (buildLine lib x y c)

/-- The colour a plotted series is drawn with (a histogram has none). -/
def Plotter.color : Plotter F → Option RGBA
  | Plotter.scatter s => some s.Color
  | Plotter.line l => some l.Color
  | Plotter.hist _ => none

/-- The points of a plotted series (a histogram has none). -/
def Plotter.points : Plotter F → List (XY F)
  | Plotter.scatter s => s.XYs
  | Plotter.line l => l.XYs
  | Plotter.hist _ => []

/-- The legend label the specification gives the series at 1-based position `i`. -/
def legendLabel (scatter : Bool) (i : Nat) : String :=
  if scatter then "x" ++ toString i ++ ", y" ++ toString i else "v" ++ toString i

/-- The canvas width the specification gives a chart kind, in centimetres. -/
def canvasWidth (scatter : Bool) : Length := if scatter then ⟨30⟩ else ⟨60⟩

/-- The world after the first statement of a renderer, `log.Printf("Plotting %s.png", title)`. -/
def World.plotting (w : World F) (title : String) : World F :=
  { w with log := w.log ++ [LogLine.printfS "Plotting %s.png" title] }

/-- The world after a file has been saved. -/
def World.saved (w : World F) (f : File F) : World F :=
  { w with files := w.files ++ [f] }

/-- The format string of a log line written by `log.Printf` (none for `log.Fatal`). -/
def LogLine.format : LogLine F → Option String
  | LogLine.printfS format _ => some format
  | LogLine.printfF format _ => some format
  | LogLine.fatal _ => none

/-- The series builds of a renderer in order, each followed by `checkErr`. -/
def buildAll : List (Except Panic (Except GoError (Plotter F))) → Prog F (List (Plotter F))
  | [] => pure []
  | r :: rest => do
    let b ← liftExcept r
    let s ← checkErr b
    let ss ← buildAll rest
    pure (s :: ss)

/-- The chart a series renderer hands to `p.Save`, given the series it built. -/
def chartOf (title : String) (labels : List String) (ss : List (Plotter F)) : Plot F :=
  { Title := title, XLabel := "x", YLabel := "y", Legend := labels.zip ss, plotters := ss }

/-- The common shape of the six series renderers. -/
def renderSeries (lib : Lib F) (title : String) (width : Length) (labels : List String)
    (built : List (Except Panic (Except GoError (Plotter F)))) : Prog F (Option GoError) := do
  logPrintfS "Plotting %s.png" title
  match lib.plotNewErr with
  | some err => pure (some err)
  | none =>
    let ss ← buildAll built
    saveAndReturn lib (chartOf title labels ss) width ⟨15⟩ title

/-- The legend labels of a call, in order. -/
def Call.labels (call : Call F) : List String :=
  match call with
  | Call.scatter1 _ _ _ _ => ["x1, y1"]
  | Call.scatter2 _ _ _ _ _ _ _ => ["x1, y1", "x2, y2"]
  | Call.scatter3 _ _ _ _ _ _ _ _ _ _ => ["x1, y1", "x2, y2", "x3, y3"]
  | Call.time1 _ _ _ _ => ["v1"]
  | Call.time2 _ _ _ _ _ _ => ["v1", "v2"]
  | Call.time3 _ _ _ _ _ _ _ _ => ["v1", "v2", "v3"]

/-- One behaviour of the libraries, over integer samples, for running the definitions on
concrete inputs: every constructor and every save succeeds; the numeric results are
stand-ins that no statement depends on. -/
def sampleLib : Lib Int where
  plotNewErr := none
  newScatterErr := fun _ => none
  newLineErr := fun _ => none
  newHistErr := fun _ _ => none
  saveErr := fun _ _ _ _ => none
  defaultColor := ⟨0, 0, 0, 255⟩
  statMean := fun x => x.sum / x.length
  statMode := fun x => (x.headD 0, 1)
  statVariance := fun _ => 0
  statStdDev := fun _ => 0
  statsMean := fun x => x.sum / x.length
  sub := fun a b => a - b

/-- One behaviour of the libraries over `F64`, for running `Stats` on a slice that
holds NaN: the numeric results are stand-ins that no statement depends on. -/
def nanLib : Lib F64 where
  plotNewErr := none
  newScatterErr := fun _ => none
  newLineErr := fun _ => none
  newHistErr := fun _ _ => none
  saveErr := fun _ _ _ _ => none
  defaultColor := ⟨0, 0, 0, 255⟩
  statMean := fun _ => F64.nan
  statMode := fun x => (x.headD F64.nan, F64.fin 1)
  statVariance := fun _ => F64.nan
  statStdDev := fun _ => F64.nan
  statsMean := fun _ => F64.nan
  sub := fun a b =>
    match a, b with
    | F64.fin x, F64.fin y => F64.fin (x - y)
    | _, _ => F64.nan

end Calls

/-! ## Running statements -/

section ProgLemmas

variable {F : Type}

@[simp] theorem Prog.pure_run {α : Type} (a : α) (w : World F) :
    (pure a : Prog F α) w = (Res.ok a, w) := rfl

@[simp] theorem Prog.bind_run {α β : Type} (x : Prog F α) (f : α → Prog F β) (w : World F) :
    (x >>= f) w = Prog.bind x f w := rfl

@[simp] theorem liftExcept_ok {α : Type} (a : α) (w : World F) :
    (liftExcept (Except.ok a) : Prog F α) w = (Res.ok a, w) := rfl

@[simp] theorem liftExcept_error {α : Type} (p : Panic) (w : World F) :
    (liftExcept (Except.error p) : Prog F α) w = (Res.panic p, w) := rfl

@[simp] theorem checkErr_ok {α : Type} (a : α) (w : World F) :
    (checkErr (Except.ok a) : Prog F α) w = (Res.ok a, w) := rfl

@[simp] theorem checkErr_error {α : Type} (e : GoError) (w : World F) :
    (checkErr (Except.error e) : Prog F α) w
      = (Res.fatal e, { w with log := w.log ++ [LogLine.fatal e] }) := rfl

theorem logPrintfS_run (format arg : String) (w : World F) :
    (logPrintfS format arg : Prog F Unit) w
      = (Res.ok (), { w with log := w.log ++ [LogLine.printfS format arg] }) := rfl

theorem logPrintfF_run (format : String) (arg : F) (w : World F) :
    (logPrintfF format arg : Prog F Unit) w
      = (Res.ok (), { w with log := w.log ++ [LogLine.printfF format arg] }) := rfl

end ProgLemmas

/-! ## The point loops -/

section LoopLemmas

variable {F : Type}

theorem index_eq_ok {α : Type} (s : List α) (i : Nat) (h : i < s.length) :
    index s i = Except.ok s[i] := by
  simp [index, List.getElem?_eq_getElem h]

theorem index_eq_error {α : Type} (s : List α) (i : Nat) (h : s.length ≤ i) :
    index s i = Except.error (Panic.indexOutOfRange i s.length) := by
  simp [index, List.getElem?_eq_none h]

theorem index_append {α : Type} (done todo : List α) (q : α) :
    index (done ++ q :: todo) done.length = Except.ok q := by
  have h : (done ++ q :: todo)[done.length]? = some q := by
    rw [List.getElem?_append_right (le_refl _)]; simp
  simp only [index, h]

theorem setX_append (done todo : List (XY F)) (q : XY F) (val : F) :
    setX (done ++ q :: todo) done.length val = Except.ok (done ++ { q with X := val } :: todo) := by
  simp [setX, index_append, bind, Except.bind, pure, Except.pure]

theorem setY_append (done todo : List (XY F)) (q : XY F) (val : F) :
    setY (done ++ q :: todo) done.length val = Except.ok (done ++ { q with Y := val } :: todo) := by
  simp [setY, index_append, bind, Except.bind, pure, Except.pure]

theorem scatterLoop_ok (y : List F) :
    ∀ (rest : List F) (done todo : List (XY F)), rest.length ≤ todo.length →
      done.length + rest.length ≤ y.length →
      scatterLoop y rest done.length (done ++ todo)
        = Except.ok (done ++ List.zipWith XY.mk rest (y.drop done.length)
            ++ todo.drop rest.length) := by
  intro rest
  induction rest with
  | nil => intro done todo _ _; simp [scatterLoop, pure, Except.pure]
  | cons val rest ih =>
    intro done todo h1 h2
    cases todo with
    | nil => simp at h1
    | cons q todo =>
      simp only [List.length_cons] at h1 h2
      have hy : done.length < y.length := by omega
      have hdrop : y.drop done.length = y[done.length] :: y.drop (done.length + 1) :=
        List.drop_eq_getElem_cons hy
      have step := ih (done ++ [⟨val, y[done.length]⟩]) todo (by omega)
        (by simp only [List.length_append, List.length_singleton]; omega)
      simp only [List.length_append, List.length_singleton, List.append_assoc,
        List.singleton_append] at step
      simp only [scatterLoop, setX_append, index_eq_ok y done.length hy, setY_append, bind,
        Except.bind, step, hdrop, List.zipWith_cons_cons, List.length_cons, List.drop_succ_cons,
        List.append_assoc, List.cons_append]

theorem scatterLoop_panic (y : List F) :
    ∀ (rest : List F) (done todo : List (XY F)), rest.length ≤ todo.length →
      done.length ≤ y.length → y.length < done.length + rest.length →
      scatterLoop y rest done.length (done ++ todo)
        = Except.error (Panic.indexOutOfRange y.length y.length) := by
  intro rest
  induction rest with
  | nil => intro done todo _ h2 h3; simp at h3; omega
  | cons val rest ih =>
    intro done todo h1 h2 h3
    cases todo with
    | nil => simp at h1
    | cons q todo =>
      simp only [List.length_cons] at h1 h3
      by_cases hy : done.length < y.length
      · have step := ih (done ++ [⟨val, y[done.length]⟩]) todo (by omega)
          (by simp only [List.length_append, List.length_singleton]; omega)
          (by simp only [List.length_append, List.length_singleton]; omega)
        simp only [List.length_append, List.length_singleton, List.append_assoc,
          List.singleton_append] at step
        simp only [scatterLoop, setX_append, index_eq_ok y done.length hy, setY_append, bind,
          Except.bind, step]
      · have he : done.length = y.length := by omega
        have e1 := index_eq_error y done.length (by omega)
        simp only [scatterLoop, setX_append, e1, bind, Except.bind]
        rw [he]

theorem lineLoop_ok (t : List F) :
    ∀ (rest : List F) (done todo : List (XY F)), rest.length ≤ todo.length →
      done.length + rest.length ≤ t.length →
      lineLoop t rest done.length (done ++ todo)
        = Except.ok (done ++ List.zipWith XY.mk (t.drop done.length) rest
            ++ todo.drop rest.length) := by
  intro rest
  induction rest with
  | nil => intro done todo _ _; simp [lineLoop, pure, Except.pure]
  | cons val rest ih =>
    intro done todo h1 h2
    cases todo with
    | nil => simp at h1
    | cons q todo =>
      simp only [List.length_cons] at h1 h2
      have ht : done.length < t.length := by omega
      have hdrop : t.drop done.length = t[done.length] :: t.drop (done.length + 1) :=
        List.drop_eq_getElem_cons ht
      have step := ih (done ++ [⟨t[done.length], val⟩]) todo (by omega)
        (by simp only [List.length_append, List.length_singleton]; omega)
      simp only [List.length_append, List.length_singleton, List.append_assoc,
        List.singleton_append] at step
      simp only [lineLoop, setX_append, index_eq_ok t done.length ht, setY_append, bind,
        Except.bind, step, hdrop, List.zipWith_cons_cons, List.length_cons, List.drop_succ_cons,
        List.append_assoc, List.cons_append]

theorem lineLoop_panic (t : List F) :
    ∀ (rest : List F) (done todo : List (XY F)), rest.length ≤ todo.length →
      done.length ≤ t.length → t.length < done.length + rest.length →
      lineLoop t rest done.length (done ++ todo)
        = Except.error (Panic.indexOutOfRange t.length t.length) := by
  intro rest
  induction rest with
  | nil => intro done todo _ h2 h3; simp at h3; omega
  | cons val rest ih =>
    intro done todo h1 h2 h3
    cases todo with
    | nil => simp at h1
    | cons q todo =>
      simp only [List.length_cons] at h1 h3
      by_cases ht : done.length < t.length
      · have step := ih (done ++ [⟨t[done.length], val⟩]) todo (by omega)
          (by simp only [List.length_append, List.length_singleton]; omega)
          (by simp only [List.length_append, List.length_singleton]; omega)
        simp only [List.length_append, List.length_singleton, List.append_assoc,
          List.singleton_append] at step
        simp only [lineLoop, setX_append, index_eq_ok t done.length ht, setY_append, bind,
          Except.bind, step]
      · have he : done.length = t.length := by omega
        have e1 := index_eq_error t done.length (by omega)
        simp only [lineLoop, e1, bind, Except.bind]
        rw [he]

theorem scatterLoop_make [Zero F] (x y : List F) (h : x.length ≤ y.length) :
    scatterLoop y x 0 (makeXYs x.length) = Except.ok (List.zipWith XY.mk x y) := by
  have step := scatterLoop_ok y x [] (makeXYs x.length) (by simp [makeXYs]) (by simpa using h)
  simpa [makeXYs] using step

theorem scatterLoop_make_panic [Zero F] (x y : List F) (h : y.length < x.length) :
    scatterLoop y x 0 (makeXYs x.length)
      = Except.error (Panic.indexOutOfRange y.length y.length) := by
  have step := scatterLoop_panic y x [] (makeXYs x.length) (by simp [makeXYs]) (by simp)
    (by simpa using h)
  simpa using step

theorem lineLoop_make [Zero F] (t v : List F) (h : v.length ≤ t.length) :
    lineLoop t v 0 (makeXYs v.length) = Except.ok (List.zipWith XY.mk t v) := by
  have step := lineLoop_ok t v [] (makeXYs v.length) (by simp [makeXYs]) (by simpa using h)
  simpa [makeXYs] using step

theorem lineLoop_make_panic [Zero F] (t v : List F) (h : t.length < v.length) :
    lineLoop t v 0 (makeXYs v.length)
      = Except.error (Panic.indexOutOfRange t.length t.length) := by
  have step := lineLoop_panic t v [] (makeXYs v.length) (by simp [makeXYs]) (by simp)
    (by simpa using h)
  simpa using step

theorem rgbaOf_ok (col : List Nat) (h : 4 ≤ col.length) :
    ∃ r g b a, col[0]? = some r ∧ col[1]? = some g ∧ col[2]? = some b ∧ col[3]? = some a ∧
      rgbaOf col = Except.ok ⟨r, g, b, a⟩ := by
  match col, h with
  | r :: g :: b :: a :: _, _ =>
    exact ⟨r, g, b, a, by simp, by simp, by simp, by simp,
      by simp [rgbaOf, index, bind, Except.bind, pure, Except.pure]⟩

theorem rgbaOf_panic (c : List Nat) (h : c.length < 4) :
    rgbaOf c = Except.error (Panic.indexOutOfRange c.length c.length) := by
  match c, h with
  | [], _ => simp [rgbaOf, index, bind, Except.bind]
  | [_], _ => simp [rgbaOf, index, bind, Except.bind]
  | [_, _], _ => simp [rgbaOf, index, bind, Except.bind]
  | [_, _, _], _ => simp [rgbaOf, index, bind, Except.bind]

theorem buildScatter_of_le [Zero F] (lib : Lib F) (x y : List F) (c : List Nat)
    (h : x.length ≤ y.length) :
    buildScatter lib x y c =
      match lib.newScatterErr (List.zipWith XY.mk x y) with
      | some err => Except.ok (Except.error err)
      | none =>
        match rgbaOf c with
        | Except.error p => Except.error p
        | Except.ok col => Except.ok (Except.ok ⟨List.zipWith XY.mk x y, col⟩) := by
  simp only [buildScatter, scatterLoop_make x y h, NewScatter, bind, Except.bind, pure,
    Except.pure]
  cases lib.newScatterErr (List.zipWith XY.mk x y) with
  | some err => rfl
  | none => cases rgbaOf c <;> rfl

theorem buildLine_of_le [Zero F] (lib : Lib F) (t v : List F) (c : List Nat)
    (h : v.length ≤ t.length) :
    buildLine lib t v c =
      match lib.newLineErr (List.zipWith XY.mk t v) with
      | some err => Except.ok (Except.error err)
      | none =>
        match rgbaOf c with
        | Except.error p => Except.error p
        | Except.ok col => Except.ok (Except.ok ⟨List.zipWith XY.mk t v, col⟩) := by
  simp only [buildLine, lineLoop_make t v h, NewLine, bind, Except.bind, pure, Except.pure]
  cases lib.newLineErr (List.zipWith XY.mk t v) with
  | some err => rfl
  | none => cases rgbaOf c <;> rfl

theorem buildScatter_of_lt [Zero F] (lib : Lib F) (x y : List F) (c : List Nat)
    (h : y.length < x.length) :
    buildScatter lib x y c = Except.error (Panic.indexOutOfRange y.length y.length) := by
  simp only [buildScatter, scatterLoop_make_panic x y h, bind, Except.bind]

theorem buildLine_of_lt [Zero F] (lib : Lib F) (t v : List F) (c : List Nat)
    (h : t.length < v.length) :
    buildLine lib t v c = Except.error (Panic.indexOutOfRange t.length t.length) := by
  simp only [buildLine, lineLoop_make_panic t v h, bind, Except.bind]

theorem rgbaOf_eq_ok (col : List Nat) (rgba : RGBA) (h : rgbaOf col = Except.ok rgba) :
    col[0]? = some rgba.R ∧ col[1]? = some rgba.G ∧ col[2]? = some rgba.B ∧
      col[3]? = some rgba.A := by
  by_cases hlen : 4 ≤ col.length
  · obtain ⟨r, g, b, a, h0, h1, h2, h3, hok⟩ := rgbaOf_ok col hlen
    rw [hok] at h
    cases h
    exact ⟨h0, h1, h2, h3⟩
  · rw [rgbaOf_panic col (by omega)] at h
    cases h

theorem buildScatter_eq_ok [Zero F] (lib : Lib F) (x y : List F) (c : List Nat) (s : Scatter F)
    (h : buildScatter lib x y c = Except.ok (Except.ok s)) :
    x.length ≤ y.length ∧ lib.newScatterErr (List.zipWith XY.mk x y) = none ∧
      s.XYs = List.zipWith XY.mk x y ∧ rgbaOf c = Except.ok s.Color := by
  by_cases hlen : x.length ≤ y.length
  · rw [buildScatter_of_le lib x y c hlen] at h
    cases herr : lib.newScatterErr (List.zipWith XY.mk x y) with
    | some err => rw [herr] at h; cases h
    | none =>
      rw [herr] at h
      cases hcol : rgbaOf c with
      | error p => rw [hcol] at h; cases h
      | ok rgba => rw [hcol] at h; cases h; exact ⟨hlen, rfl, rfl, rfl⟩
  · rw [buildScatter_of_lt lib x y c (by omega)] at h
    cases h

theorem buildLine_eq_ok [Zero F] (lib : Lib F) (t v : List F) (c : List Nat) (l : Line F)
    (h : buildLine lib t v c = Except.ok (Except.ok l)) :
    v.length ≤ t.length ∧ lib.newLineErr (List.zipWith XY.mk t v) = none ∧
      l.XYs = List.zipWith XY.mk t v ∧ rgbaOf c = Except.ok l.Color := by
  by_cases hlen : v.length ≤ t.length
  · rw [buildLine_of_le lib t v c hlen] at h
    cases herr : lib.newLineErr (List.zipWith XY.mk t v) with
    | some err => rw [herr] at h; cases h
    | none =>
      rw [herr] at h
      cases hcol : rgbaOf c with
      | error p => rw [hcol] at h; cases h
      | ok rgba => rw [hcol] at h; cases h; exact ⟨hlen, rfl, rfl, rfl⟩
  · rw [buildLine_of_lt lib t v c (by omega)] at h
    cases h

theorem zipWith_pairs (x y : List F) (i : Nat) (a b : F) (ha : x[i]? = some a)
    (hb : y[i]? = some b) : (List.zipWith XY.mk x y)[i]? = some ⟨a, b⟩ := by
  rw [List.getElem?_zipWith, ha, hb]

end LoopLemmas

/-! ## The renderers have the common shape -/

section Shape

variable {F : Type}

theorem Call.run_eq_renderSeries [Zero F] (lib : Lib F) (call : Call F) :
    call.run lib = renderSeries lib call.title (canvasWidth call.isScatter) call.labels
      ((call.series lib).map Prod.snd) := by
  funext w
  cases call with
  | scatter1 x1 y1 c1 title =>
    simp only [Call.run, Call.title, Call.isScatter, Call.labels, Call.series, canvasWidth,
      PlotScatterXY1Var, renderSeries, New, List.map, buildAll, scatterPlotter,
      Prog.bind_run, Prog.bind, logPrintfS_run]
    cases lib.plotNewErr with
    | some err => rfl
    | none =>
      cases hloop : scatterLoop y1 x1 0 (makeXYs x1.length) with
      | error p =>
        have hb : buildScatter lib x1 y1 c1 = Except.error p := by
          simp only [buildScatter, hloop, bind, Except.bind]
        simp only [hb]
        rfl
      | ok pv =>
        rcases buildScatter lib x1 y1 c1 with p | (e | s1) <;> rfl
  | scatter2 x1 y1 x2 y2 c1 c2 title =>
    simp only [Call.run, Call.title, Call.isScatter, Call.labels, Call.series, canvasWidth,
      PlotScatterXY2Var, renderSeries, New, List.map, buildAll, scatterPlotter,
      Prog.bind_run, Prog.bind, logPrintfS_run]
    cases lib.plotNewErr with
    | some err => rfl
    | none =>
      rcases buildScatter lib x1 y1 c1 with p | (e | s1) <;> try rfl
      rcases buildScatter lib x2 y2 c2 with p | (e | s2) <;> rfl
  | scatter3 x1 y1 x2 y2 x3 y3 c1 c2 c3 title =>
    simp only [Call.run, Call.title, Call.isScatter, Call.labels, Call.series, canvasWidth,
      PlotScatterXY3Var, renderSeries, New, List.map, buildAll, scatterPlotter,
      Prog.bind_run, Prog.bind, logPrintfS_run]
    cases lib.plotNewErr with
    | some err => rfl
    | none =>
      rcases buildScatter lib x1 y1 c1 with p | (e | s1) <;> try rfl
      rcases buildScatter lib x2 y2 c2 with p | (e | s2) <;> try rfl
      rcases buildScatter lib x3 y3 c3 with p | (e | s3) <;> rfl
  | time1 timestamp v1 c1 title =>
    simp only [Call.run, Call.title, Call.isScatter, Call.labels, Call.series, canvasWidth,
      PlotTime1Vals, renderSeries, New, List.map, buildAll, linePlotter,
      Prog.bind_run, Prog.bind, logPrintfS_run]
    cases lib.plotNewErr with
    | some err => rfl
    | none =>
      rcases buildLine lib timestamp v1 c1 with p | (e | l1) <;> rfl
  | time2 timestamp v1 v2 c1 c2 title =>
    simp only [Call.run, Call.title, Call.isScatter, Call.labels, Call.series, canvasWidth,
      PlotTime2Vals, renderSeries, New, List.map, buildAll, linePlotter,
      Prog.bind_run, Prog.bind, logPrintfS_run]
    cases lib.plotNewErr with
    | some err => rfl
    | none =>
      rcases buildLine lib timestamp v1 c1 with p | (e | l1) <;> try rfl
      rcases buildLine lib timestamp v2 c2 with p | (e | l2) <;> rfl
  | time3 timestamp v1 v2 v3 c1 c2 c3 title =>
    simp only [Call.run, Call.title, Call.isScatter, Call.labels, Call.series, canvasWidth,
      PlotTime3Vals, renderSeries, New, List.map, buildAll, linePlotter,
      Prog.bind_run, Prog.bind, logPrintfS_run]
    cases lib.plotNewErr with
    | some err => rfl
    | none =>
      rcases buildLine lib timestamp v1 c1 with p | (e | l1) <;> try rfl
      rcases buildLine lib timestamp v2 c2 with p | (e | l2) <;> try rfl
      rcases buildLine lib timestamp v3 c3 with p | (e | l3) <;> rfl

theorem saveAndReturn_run (lib : Lib F) (p : Plot F) (w h : Length) (title : String)
    (world : World F) :
    saveAndReturn lib p w h title world =
      match lib.saveErr p w h (title ++ ".png") with
      | some err => (Res.ok (some err), world)
      | none => (Res.ok none, world.saved ⟨title ++ ".png", w, h, p⟩) := by
  simp only [saveAndReturn, Plot.Save, Prog.bind_run, Prog.bind, World.saved]
  cases lib.saveErr p w h (title ++ ".png") <;> rfl

theorem buildAll_ok (ss : List (Plotter F)) (w : World F) :
    buildAll (ss.map (fun s => Except.ok (Except.ok s))) w = (Res.ok ss, w) := by
  induction ss with
  | nil => rfl
  | cons s rest ih =>
    simp only [List.map, buildAll, Prog.bind_run, Prog.bind, liftExcept_ok, checkErr_ok, ih,
      Prog.pure_run]

theorem buildAll_fatal (pre : List (Plotter F)) (e : GoError)
    (post : List (Except Panic (Except GoError (Plotter F)))) (w : World F) :
    buildAll (pre.map (fun s => Except.ok (Except.ok s)) ++ Except.ok (Except.error e) :: post) w
      = (Res.fatal e, { w with log := w.log ++ [LogLine.fatal e] }) := by
  induction pre with
  | nil =>
    simp only [List.map_nil, List.nil_append, buildAll, Prog.bind_run, Prog.bind, liftExcept_ok,
      checkErr_error]
  | cons s rest ih =>
    rw [List.map_cons, List.cons_append]
    simp only [buildAll, Prog.bind_run, Prog.bind, liftExcept_ok, checkErr_ok, ih]

theorem buildAll_panic (pre : List (Plotter F)) (p : Panic)
    (post : List (Except Panic (Except GoError (Plotter F)))) (w : World F) :
    buildAll (pre.map (fun s => Except.ok (Except.ok s)) ++ Except.error p :: post) w
      = (Res.panic p, w) := by
  induction pre with
  | nil =>
    simp only [List.map_nil, List.nil_append, buildAll, Prog.bind_run, Prog.bind,
      liftExcept_error]
  | cons s rest ih =>
    rw [List.map_cons, List.cons_append]
    simp only [buildAll, Prog.bind_run, Prog.bind, liftExcept_ok, checkErr_ok, ih]

theorem buildAll_cases (built : List (Except Panic (Except GoError (Plotter F)))) (w : World F) :
    (∃ ss, built = ss.map (fun s => Except.ok (Except.ok s)) ∧ buildAll built w = (Res.ok ss, w)) ∨
    (∃ e, buildAll built w = (Res.fatal e, { w with log := w.log ++ [LogLine.fatal e] })) ∨
    (∃ p, buildAll built w = (Res.panic p, w)) := by
  induction built with
  | nil => exact Or.inl ⟨[], rfl, rfl⟩
  | cons r rest ih =>
    rcases r with p | (e | s)
    · exact Or.inr (Or.inr ⟨p, buildAll_panic [] p rest w⟩)
    · exact Or.inr (Or.inl ⟨e, buildAll_fatal [] e rest w⟩)
    · rcases ih with ⟨ss, hss, hrun⟩ | ⟨e, hrun⟩ | ⟨p, hrun⟩
      · refine Or.inl ⟨s :: ss, by simp [hss], ?_⟩
        simp only [buildAll, Prog.bind_run, Prog.bind, liftExcept_ok, checkErr_ok, hrun,
          Prog.pure_run]
      · refine Or.inr (Or.inl ⟨e, ?_⟩)
        simp only [buildAll, Prog.bind_run, Prog.bind, liftExcept_ok, checkErr_ok, hrun]
      · refine Or.inr (Or.inr ⟨p, ?_⟩)
        simp only [buildAll, Prog.bind_run, Prog.bind, liftExcept_ok, checkErr_ok, hrun]

theorem renderSeries_run (lib : Lib F) (title : String) (width : Length) (labels : List String)
    (built : List (Except Panic (Except GoError (Plotter F)))) (w : World F) :
    renderSeries lib title width labels built w =
      match lib.plotNewErr with
      | some err => (Res.ok (some err), w.plotting title)
      | none =>
        match buildAll built (w.plotting title) with
        | (Res.ok ss, w1) => saveAndReturn lib (chartOf title labels ss) width ⟨15⟩ title w1
        | (Res.fatal e, w1) => (Res.fatal e, w1)
        | (Res.panic p, w1) => (Res.panic p, w1) := by
  simp only [renderSeries, Prog.bind_run, Prog.bind, logPrintfS_run, World.plotting]
  cases lib.plotNewErr with
  | some err => rfl
  | none =>
    simp only [Prog.bind_run, Prog.bind]
    split <;> rename_i heq <;> simp only [heq]

theorem renderSeries_unbuilt (lib : Lib F) (title : String) (width : Length)
    (labels : List String) (built : List (Except Panic (Except GoError (Plotter F))))
    (w : World F) (h : ∃ r ∈ built, ∀ s, r ≠ Except.ok (Except.ok s)) :
    (renderSeries lib title width labels built w).1 ≠ Res.ok none ∧
      (renderSeries lib title width labels built w).2.files = w.files := by
  rw [renderSeries_run]
  cases lib.plotNewErr with
  | some err => exact ⟨by simp, rfl⟩
  | none =>
    rcases buildAll_cases built (w.plotting title) with ⟨ss, hss, _⟩ | ⟨e, hrun⟩ | ⟨p, hrun⟩
    · obtain ⟨r, hr, hne⟩ := h
      rw [hss] at hr
      obtain ⟨s, _, hs⟩ := List.mem_map.mp hr
      exact absurd hs.symm (hne s)
    · simp only [hrun]
      exact ⟨by simp, rfl⟩
    · simp only [hrun]
      exact ⟨by simp, rfl⟩

theorem renderSeries_built (lib : Lib F) (title : String) (width : Length)
    (labels : List String) (ss : List (Plotter F)) (w : World F) (hnew : lib.plotNewErr = none) :
    renderSeries lib title width labels (ss.map (fun s => Except.ok (Except.ok s))) w
      = saveAndReturn lib (chartOf title labels ss) width ⟨15⟩ title (w.plotting title) := by
  rw [renderSeries_run, hnew]
  simp only [buildAll_ok]

theorem renderSeries_fatal (lib : Lib F) (title : String) (width : Length)
    (labels : List String) (pre : List (Plotter F)) (e : GoError)
    (post : List (Except Panic (Except GoError (Plotter F)))) (w : World F)
    (hnew : lib.plotNewErr = none) :
    renderSeries lib title width labels
        (pre.map (fun s => Except.ok (Except.ok s)) ++ Except.ok (Except.error e) :: post) w
      = (Res.fatal e, { w with
          log := w.log ++ [LogLine.printfS "Plotting %s.png" title, LogLine.fatal e] }) := by
  rw [renderSeries_run, hnew]
  simp only [buildAll_fatal, World.plotting, List.append_assoc, List.singleton_append]

theorem histLoop_ok [Zero F] :
    ∀ (rest done todo : List F), rest.length ≤ todo.length →
      histLoop rest done.length (done ++ todo)
        = Except.ok (done ++ rest ++ todo.drop rest.length) := by
  intro rest
  induction rest with
  | nil => intro done todo _; simp [histLoop, pure, Except.pure]
  | cons val rest ih =>
    intro done todo h1
    cases todo with
    | nil => simp at h1
    | cons q todo =>
      simp only [List.length_cons] at h1
      have step := ih (done ++ [val]) todo (by omega)
      simp only [List.length_append, List.length_singleton, List.append_assoc,
        List.singleton_append] at step
      have hset : (done ++ q :: todo).set done.length val = done ++ val :: todo := by simp
      simp only [histLoop, index_append, bind, Except.bind, hset, step, List.length_cons,
        List.drop_succ_cons, List.append_assoc, List.cons_append, List.nil_append]

theorem PlotHistogram_run [Zero F] (lib : Lib F) (v : List F) (title : String) (w : World F) :
    PlotHistogram lib v title w =
      match lib.plotNewErr with
      | some err => (Res.ok (some err), w.plotting title)
      | none =>
        match lib.newHistErr v 100 with
        | some err => (Res.ok (some err), w.plotting title)
        | none =>
          saveAndReturn lib
            { Title := title, XLabel := "", YLabel := "", Legend := [],
              plotters := [Plotter.hist ⟨v, 100, some 1⟩] }
            ⟨15⟩ ⟨15⟩ title (w.plotting title) := by
  have hloop : histLoop v 0 (List.replicate v.length 0) = Except.ok v := by
    have step := histLoop_ok v [] (List.replicate v.length (0 : F)) (by simp)
    simpa using step
  simp only [PlotHistogram, New, hloop, NewHist, Prog.bind_run, Prog.bind, logPrintfS_run,
    World.plotting]
  cases lib.plotNewErr with
  | some err => rfl
  | none =>
    simp only [Prog.bind_run, Prog.bind, liftExcept_ok]
    cases lib.newHistErr v 100 with
    | some err => rfl
    | none => rfl

theorem Call.labels_length [Zero F] (lib : Lib F) (call : Call F) :
    call.labels.length = (call.series lib).length := by
  cases call <;> rfl

theorem Call.labels_getElem [Zero F] (lib : Lib F) (call : Call F) (i : Nat)
    (h : i < (call.series lib).length) :
    call.labels[i]? = some (legendLabel call.isScatter (i + 1)) := by
  cases call with
  | scatter1 x1 y1 c1 title =>
    simp only [Call.series, List.length_cons, List.length_nil] at h
    have hi : i = 0 := by omega
    subst hi; rfl
  | scatter2 x1 y1 x2 y2 c1 c2 title =>
    simp only [Call.series, List.length_cons, List.length_nil] at h
    have hi : i = 0 ∨ i = 1 := by omega
    rcases hi with hi | hi <;> subst hi <;> rfl
  | scatter3 x1 y1 x2 y2 x3 y3 c1 c2 c3 title =>
    simp only [Call.series, List.length_cons, List.length_nil] at h
    have hi : i = 0 ∨ i = 1 ∨ i = 2 := by omega
    rcases hi with hi | hi | hi <;> subst hi <;> rfl
  | time1 timestamp v1 c1 title =>
    simp only [Call.series, List.length_cons, List.length_nil] at h
    have hi : i = 0 := by omega
    subst hi; rfl
  | time2 timestamp v1 v2 c1 c2 title =>
    simp only [Call.series, List.length_cons, List.length_nil] at h
    have hi : i = 0 ∨ i = 1 := by omega
    rcases hi with hi | hi <;> subst hi <;> rfl
  | time3 timestamp v1 v2 v3 c1 c2 c3 title =>
    simp only [Call.series, List.length_cons, List.length_nil] at h
    have hi : i = 0 ∨ i = 1 ∨ i = 2 := by omega
    rcases hi with hi | hi | hi <;> subst hi <;> rfl

theorem Call.run_unbuilt [Zero F] (lib : Lib F) (call : Call F) (w : World F)
    (h : ∃ r ∈ (call.series lib).map Prod.snd, ∀ s, r ≠ Except.ok (Except.ok s)) :
    (call.run lib w).1 ≠ Res.ok none ∧ (call.run lib w).2.files = w.files := by
  rw [Call.run_eq_renderSeries]
  exact renderSeries_unbuilt lib _ _ _ _ w h

theorem linePlotter_of_lt [Zero F] (lib : Lib F) (t v : List F) (c : List Nat)
    (h : t.length < v.length) (s : Plotter F) :
    linePlotter (buildLine lib t v c) ≠ Except.ok (Except.ok s) := by
  rw [buildLine_of_lt lib t v c h]
  intro hcontra
  cases hcontra

theorem rgbaOf_colourOf (col : List Nat) (h : 4 ≤ col.length) :
    rgbaOf col = Except.ok (colourOf col) := by
  obtain ⟨r, g, b, a, h0, h1, h2, h3, hok⟩ := rgbaOf_ok col h
  rw [hok]
  simp [colourOf, List.getD_eq_getElem?_getD, h0, h1, h2, h3]

theorem buildSeries_accepted [Zero F] (lib : Lib F) (scatter : Bool) (x y : List F)
    (c : List Nat) (h : seriesAccepted lib scatter x y c) :
    buildSeries lib scatter x y c = Except.ok (Except.ok (expectedSeries scatter x y c)) := by
  obtain ⟨hcol, hrest⟩ := h
  cases scatter with
  | true =>
    simp only [if_true] at hrest
    simp only [buildSeries, expectedSeries, if_true, buildScatter_of_le lib x y c hrest.1,
      hrest.2, rgbaOf_colourOf c hcol]
    rfl
  | false =>
    simp only [Bool.false_eq_true, if_false] at hrest
    simp only [buildSeries, expectedSeries, Bool.false_eq_true, if_false,
      buildLine_of_le lib x y c hrest.1, hrest.2, rgbaOf_colourOf c hcol]
    rfl

theorem Call.series_eq_supplied [Zero F] (lib : Lib F) (call : Call F) :
    call.series lib = call.supplied.map
      (fun t => (t.2.2, buildSeries lib call.isScatter t.1 t.2.1 t.2.2)) := by
  cases call <;> rfl

theorem Call.series_accepted [Zero F] (lib : Lib F) (call : Call F)
    (hacc : ∀ x y col, (x, y, col) ∈ call.supplied →
      seriesAccepted lib call.isScatter x y col) :
    (call.series lib).map Prod.snd
      = (call.supplied.map
          (fun t => expectedSeries call.isScatter t.1 t.2.1 t.2.2)).map
            (fun s => Except.ok (Except.ok s)) := by
  rw [Call.series_eq_supplied, List.map_map, List.map_map]
  apply List.map_congr_left
  intro t ht
  obtain ⟨x, y, col⟩ := t
  exact buildSeries_accepted lib call.isScatter x y col (hacc x y col ht)

theorem Call.run_accepted [Zero F] (lib : Lib F) (call : Call F) (w : World F)
    (hnew : lib.plotNewErr = none)
    (hacc : ∀ x y col, (x, y, col) ∈ call.supplied →
      seriesAccepted lib call.isScatter x y col) :
    call.run lib w = saveAndReturn lib
      (chartOf call.title call.labels
        (call.supplied.map (fun t => expectedSeries call.isScatter t.1 t.2.1 t.2.2)))
      (canvasWidth call.isScatter) ⟨15⟩ call.title (w.plotting call.title) := by
  rw [Call.run_eq_renderSeries, Call.series_accepted lib call hacc,
    renderSeries_built _ _ _ _ _ _ hnew]

theorem renderSeries_panic (lib : Lib F) (title : String) (width : Length)
    (labels : List String) (pre : List (Plotter F)) (p : Panic)
    (post : List (Except Panic (Except GoError (Plotter F)))) (w : World F)
    (hnew : lib.plotNewErr = none) :
    renderSeries lib title width labels
        (pre.map (fun s => Except.ok (Except.ok s)) ++ Except.error p :: post) w
      = (Res.panic p, w.plotting title) := by
  rw [renderSeries_run, hnew]
  simp only [buildAll_panic]

theorem Call.supplied_length [Zero F] (lib : Lib F) (call : Call F) :
    (call.series lib).length = call.supplied.length := by
  rw [Call.series_eq_supplied, List.length_map]

theorem PlotTime1Vals_shape [Zero F] (lib : Lib F) (timestamp v1 : List F) (c1 : List Nat)
    (title : String) :
    PlotTime1Vals lib timestamp v1 c1 title = renderSeries lib title ⟨60⟩ ["v1"]
      [linePlotter (buildLine lib timestamp v1 c1)] :=
  Call.run_eq_renderSeries lib (Call.time1 timestamp v1 c1 title)

theorem PlotTime2Vals_shape [Zero F] (lib : Lib F) (timestamp v1 v2 : List F)
    (c1 c2 : List Nat) (title : String) :
    PlotTime2Vals lib timestamp v1 v2 c1 c2 title = renderSeries lib title ⟨60⟩ ["v1", "v2"]
      [linePlotter (buildLine lib timestamp v1 c1),
       linePlotter (buildLine lib timestamp v2 c2)] :=
  Call.run_eq_renderSeries lib (Call.time2 timestamp v1 v2 c1 c2 title)

theorem PlotTime3Vals_shape [Zero F] (lib : Lib F) (timestamp v1 v2 v3 : List F)
    (c1 c2 c3 : List Nat) (title : String) :
    PlotTime3Vals lib timestamp v1 v2 v3 c1 c2 c3 title
      = renderSeries lib title ⟨60⟩ ["v1", "v2", "v3"]
        [linePlotter (buildLine lib timestamp v1 c1),
         linePlotter (buildLine lib timestamp v2 c2),
         linePlotter (buildLine lib timestamp v3 c3)] :=
  Call.run_eq_renderSeries lib (Call.time3 timestamp v1 v2 v3 c1 c2 c3 title)

end Shape

/-! ## The statistics library calls -/

section QuantileLoop

variable {F : Type}

theorem empiricalQuantile_cons (num den n cumsum : Nat) (xi : F) (rest : List F) :
    empiricalQuantile num den n cumsum (xi :: rest)
      = if num * n ≤ (cumsum + 1) * den then Except.ok xi
        else empiricalQuantile num den n (cumsum + 1) rest := rfl

theorem empiricalQuantile_mem (num den n : Nat) :
    ∀ (xs : List F) (cumsum : Nat) (q : F),
      empiricalQuantile num den n cumsum xs = Except.ok q → q ∈ xs := by
  intro xs
  induction xs with
  | nil => intro cumsum q h; simp [empiricalQuantile] at h
  | cons xi rest ih =>
    intro cumsum q h
    by_cases hc : num * n ≤ (cumsum + 1) * den
    · simp only [empiricalQuantile, hc, if_true, Except.ok.injEq] at h
      simp [h]
    · simp only [empiricalQuantile, hc, if_false] at h
      exact List.mem_cons_of_mem _ (ih (cumsum + 1) q h)

theorem empiricalQuantile_ok (num den n : Nat) :
    ∀ (xs : List F) (cumsum : Nat), xs ≠ [] → num * n ≤ (cumsum + xs.length) * den →
      ∃ q, empiricalQuantile num den n cumsum xs = Except.ok q := by
  intro xs
  induction xs with
  | nil => intro cumsum h; exact absurd rfl h
  | cons xi rest ih =>
    intro cumsum _ hreach
    by_cases hc : num * n ≤ (cumsum + 1) * den
    · exact ⟨xi, by simp only [empiricalQuantile, hc, if_true]⟩
    · cases rest with
      | nil => simp only [List.length_singleton] at hreach; exact absurd hreach hc
      | cons xj rest2 =>
        have hreach2 : num * n ≤ (cumsum + 1 + (xj :: rest2).length) * den := by
          simp only [List.length_cons] at hreach ⊢
          have : cumsum + 1 + (rest2.length + 1) = cumsum + (rest2.length + 1 + 1) := by omega
          rw [this]; exact hreach
        obtain ⟨q, hq⟩ := ih (cumsum + 1) (by simp) hreach2
        exact ⟨q, by rw [empiricalQuantile_cons, if_neg hc]; exact hq⟩

theorem empiricalQuantile_mono [LinearOrder F] (num1 num2 den n : Nat) (hnum : num1 ≤ num2) :
    ∀ (xs : List F) (cumsum : Nat) (a b : F), xs.Sorted (fun a b => a ≤ b) →
      empiricalQuantile num1 den n cumsum xs = Except.ok a →
      empiricalQuantile num2 den n cumsum xs = Except.ok b → a ≤ b := by
  intro xs
  induction xs with
  | nil => intro cumsum a b _ h; simp [empiricalQuantile] at h
  | cons xi rest ih =>
    intro cumsum a b hsorted ha hb
    have hle : num1 * n ≤ num2 * n := Nat.mul_le_mul_right n hnum
    by_cases hc2 : num2 * n ≤ (cumsum + 1) * den
    · have hc1 : num1 * n ≤ (cumsum + 1) * den := le_trans hle hc2
      simp only [empiricalQuantile, hc1, hc2, if_true, Except.ok.injEq] at ha hb
      rw [← ha, ← hb]
    · simp only [empiricalQuantile, hc2, if_false] at hb
      by_cases hc1 : num1 * n ≤ (cumsum + 1) * den
      · simp only [empiricalQuantile, hc1, if_true, Except.ok.injEq] at ha
        have hmem := empiricalQuantile_mem num2 den n rest (cumsum + 1) b hb
        rw [← ha]
        exact List.rel_of_sorted_cons hsorted b hmem
      · simp only [empiricalQuantile, hc1, if_false] at ha
        exact ih (cumsum + 1) a b (List.Sorted.of_cons hsorted) ha hb

end QuantileLoop

section SortLemmas

variable {α : Type}

theorem sortInsert_perm (less : α → α → Bool) (v : α) :
    ∀ sorted : List α, (sortInsert less v sorted).Perm (v :: sorted) := by
  intro sorted
  induction sorted with
  | nil => exact List.Perm.refl _
  | cons u rest ih =>
    by_cases h : less v u = true
    · simp only [sortInsert, h, if_true]
      exact (List.Perm.cons u ih).trans (List.Perm.swap v u rest)
    · simp only [sortInsert, h]
      exact List.Perm.refl _

theorem sortFold_perm (less : α → α → Bool) :
    ∀ (data sorted : List α),
      (data.foldl (fun sorted v => sortInsert less v sorted) sorted).Perm (data ++ sorted) := by
  intro data
  induction data with
  | nil => intro sorted; exact List.Perm.refl _
  | cons v rest ih =>
    intro sorted
    simp only [List.foldl_cons, List.cons_append]
    exact (ih (sortInsert less v sorted)).trans
      ((List.Perm.append_left rest (sortInsert_perm less v sorted)).trans
        List.perm_middle)

theorem insertionSort_perm (less : α → α → Bool) (data : List α) :
    (insertionSort less data).Perm data := by
  have h := sortFold_perm less data []
  simp only [List.append_nil] at h
  exact (List.reverse_perm _).trans h

theorem sortInsert_desc {K : Type} [LinearOrder K] (key : α → K) (v : α) :
    ∀ sorted : List α, sorted.Pairwise (fun a b => key b ≤ key a) →
      (sortInsert (fun a b => decide (key a < key b)) v sorted).Pairwise
        (fun a b => key b ≤ key a) := by
  intro sorted
  induction sorted with
  | nil => intro _; simp [sortInsert]
  | cons u rest ih =>
    intro hdesc
    have hrest := List.Pairwise.of_cons hdesc
    have hu : ∀ x ∈ rest, key x ≤ key u := (List.pairwise_cons.mp hdesc).1
    by_cases h : key v < key u
    · simp only [sortInsert, h, decide_True, if_true]
      refine List.pairwise_cons.mpr ⟨?_, ih hrest⟩
      intro x hx
      rcases List.mem_cons.mp ((sortInsert_perm _ v rest).subset hx) with hxv | hxr
      · rw [hxv]; exact le_of_lt h
      · exact hu x hxr
    · simp only [sortInsert, h, decide_False, Bool.false_eq_true, if_false]
      refine List.pairwise_cons.mpr ⟨?_, hdesc⟩
      intro x hx
      rcases List.mem_cons.mp hx with hxu | hxr
      · rw [hxu]; exact le_of_not_lt h
      · exact le_trans (hu x hxr) (le_of_not_lt h)

theorem sortFold_desc {K : Type} [LinearOrder K] (key : α → K) :
    ∀ (data sorted : List α), sorted.Pairwise (fun a b => key b ≤ key a) →
      (data.foldl (fun sorted v => sortInsert (fun a b => decide (key a < key b)) v sorted)
        sorted).Pairwise (fun a b => key b ≤ key a) := by
  intro data
  induction data with
  | nil => intro sorted h; exact h
  | cons v rest ih =>
    intro sorted h
    simp only [List.foldl_cons]
    exact ih _ (sortInsert_desc key v sorted h)

theorem insertionSort_sorted {K : Type} [LinearOrder K] (key : α → K) (data : List α) :
    (insertionSort (fun a b => decide (key a < key b)) data).Pairwise
      (fun a b => key a ≤ key b) := by
  have h := sortFold_desc key data [] List.Pairwise.nil
  exact List.pairwise_reverse.mpr h

end SortLemmas

section StatsLemmas

variable {F : Type} [LinearOrder F] [Zero F]

theorem lt_eq_decide (a b : F) : Float64.lt a b = decide (a < b) := rfl

theorem isNaN_eq_false (a : F) : Float64.isNaN a = false := rfl

theorem HasNaN_eq_false (s : List F) : HasNaN s = false := by
  simp [HasNaN, isNaN_eq_false]

theorem minIdxLoop_spec (s : List F) (hs : s ≠ []) :
    ∀ (rest pre : List F) (cur : Option F) (ind : Nat), s = pre ++ rest →
      ((cur = none ∧ pre = []) ∨ (∃ m, cur = some m ∧ s[ind]? = some m ∧ ∀ x ∈ pre, m ≤ x)) →
      ∃ m, s[minIdxLoop rest pre.length cur ind]? = some m ∧ ∀ x ∈ s, m ≤ x := by
  intro rest
  induction rest with
  | nil =>
    intro pre cur ind hsplit hinv
    simp only [List.append_nil] at hsplit
    rcases hinv with ⟨_, hpre⟩ | ⟨m, _, hm, hall⟩
    · exact absurd (hsplit.trans hpre) hs
    · exact ⟨m, by simpa [minIdxLoop] using hm, by simpa [hsplit] using hall⟩
  | cons v rest ih =>
    intro pre cur ind hsplit hinv
    have hsplit2 : s = (pre ++ [v]) ++ rest := by simpa using hsplit
    have hv : s[pre.length]? = some v := by
      rw [hsplit, List.getElem?_append_right (le_refl _)]; simp
    have hlen : (pre ++ [v]).length = pre.length + 1 := by simp
    rcases hinv with ⟨hcur, hpre⟩ | ⟨m, hcur, hm, hall⟩
    · subst hcur
      have step := ih (pre ++ [v]) (some v) pre.length hsplit2
        (Or.inr ⟨v, rfl, hv, by simp [hpre]⟩)
      rw [hlen] at step
      simpa [minIdxLoop, isNaN_eq_false] using step
    · subst hcur
      by_cases hlt : v < m
      · have step := ih (pre ++ [v]) (some v) pre.length hsplit2
          (Or.inr ⟨v, rfl, hv, by
            intro x hx
            rcases List.mem_append.mp hx with h | h
            · exact le_trans (le_of_lt hlt) (hall x h)
            · simp at h; exact le_of_eq h.symm⟩)
        rw [hlen] at step
        simpa [minIdxLoop, isNaN_eq_false, lt_eq_decide, hlt] using step
      · have step := ih (pre ++ [v]) (some m) ind hsplit2
          (Or.inr ⟨m, rfl, hm, by
            intro x hx
            rcases List.mem_append.mp hx with h | h
            · exact hall x h
            · simp at h; rw [h]; exact le_of_not_lt hlt⟩)
        rw [hlen] at step
        simpa [minIdxLoop, isNaN_eq_false, lt_eq_decide, hlt] using step

theorem maxIdxLoop_spec (s : List F) (hs : s ≠ []) :
    ∀ (rest pre : List F) (cur : Option F) (ind : Nat), s = pre ++ rest →
      ((cur = none ∧ pre = []) ∨ (∃ m, cur = some m ∧ s[ind]? = some m ∧ ∀ x ∈ pre, x ≤ m)) →
      ∃ m, s[maxIdxLoop rest pre.length cur ind]? = some m ∧ ∀ x ∈ s, x ≤ m := by
  intro rest
  induction rest with
  | nil =>
    intro pre cur ind hsplit hinv
    simp only [List.append_nil] at hsplit
    rcases hinv with ⟨_, hpre⟩ | ⟨m, _, hm, hall⟩
    · exact absurd (hsplit.trans hpre) hs
    · exact ⟨m, by simpa [maxIdxLoop] using hm, by simpa [hsplit] using hall⟩
  | cons v rest ih =>
    intro pre cur ind hsplit hinv
    have hsplit2 : s = (pre ++ [v]) ++ rest := by simpa using hsplit
    have hv : s[pre.length]? = some v := by
      rw [hsplit, List.getElem?_append_right (le_refl _)]; simp
    have hlen : (pre ++ [v]).length = pre.length + 1 := by simp
    rcases hinv with ⟨hcur, hpre⟩ | ⟨m, hcur, hm, hall⟩
    · subst hcur
      have step := ih (pre ++ [v]) (some v) pre.length hsplit2
        (Or.inr ⟨v, rfl, hv, by simp [hpre]⟩)
      rw [hlen] at step
      simpa [maxIdxLoop, isNaN_eq_false] using step
    · subst hcur
      by_cases hlt : m < v
      · have step := ih (pre ++ [v]) (some v) pre.length hsplit2
          (Or.inr ⟨v, rfl, hv, by
            intro x hx
            rcases List.mem_append.mp hx with h | h
            · exact le_trans (hall x h) (le_of_lt hlt)
            · simp at h; exact le_of_eq h⟩)
        rw [hlen] at step
        simpa [maxIdxLoop, isNaN_eq_false, lt_eq_decide, hlt] using step
      · have step := ih (pre ++ [v]) (some m) ind hsplit2
          (Or.inr ⟨m, rfl, hm, by
            intro x hx
            rcases List.mem_append.mp hx with h | h
            · exact hall x h
            · simp at h; rw [h]; exact le_of_not_lt hlt⟩)
        rw [hlen] at step
        simpa [maxIdxLoop, isNaN_eq_false, lt_eq_decide, hlt] using step

theorem Min_spec (s : List F) (hs : s ≠ []) :
    ∃ m, Min s = Except.ok m ∧ m ∈ s ∧ ∀ x ∈ s, m ≤ x := by
  obtain ⟨m, hm, hall⟩ := minIdxLoop_spec s hs s [] none 0 rfl (Or.inl ⟨rfl, rfl⟩)
  have hlen : s.length ≠ 0 := by simpa using hs
  refine ⟨m, ?_, List.getElem?_mem hm, hall⟩
  simp only [List.length_nil] at hm
  simp only [Min, hlen, if_false, index, hm]

theorem Max_spec (s : List F) (hs : s ≠ []) :
    ∃ m, Max s = Except.ok m ∧ m ∈ s ∧ ∀ x ∈ s, x ≤ m := by
  obtain ⟨m, hm, hall⟩ := maxIdxLoop_spec s hs s [] none 0 rfl (Or.inl ⟨rfl, rfl⟩)
  have hlen : s.length ≠ 0 := by simpa using hs
  refine ⟨m, ?_, List.getElem?_mem hm, hall⟩
  simp only [List.length_nil] at hm
  simp only [Max, hlen, if_false, index, hm]

theorem Argsort_spec (dst : List F) (inds : List Nat) (h : dst.length = inds.length) :
    ∃ out outInds, Argsort dst inds = Except.ok (out, outInds) ∧
      out.Sorted (fun a b => a ≤ b) ∧ out.Perm dst := by
  have hne : ¬ (dst.length ≠ inds.length) := fun hh => hh h
  refine ⟨_, _, if_neg hne, ?_, ?_⟩
  · have hsorted := insertionSort_sorted (fun p : F × Nat => p.1)
      (dst.zip (List.range dst.length))
    exact List.pairwise_map.mpr hsorted
  · have hperm := (insertionSort_perm (fun p q : F × Nat => Float64.lt p.1 q.1)
      (dst.zip (List.range dst.length))).map Prod.fst
    have hfst : (dst.zip (List.range dst.length)).map Prod.fst = dst :=
      List.map_fst_zip _ _ (by simp)
    rw [hfst] at hperm
    exact hperm

theorem Float64sAreSorted_of_sorted :
    ∀ x : List F, x.Sorted (fun a b => a ≤ b) → Float64sAreSorted x = true
  | [], _ => rfl
  | [_], _ => rfl
  | a :: b :: rest, h => by
    have hab : a ≤ b := List.rel_of_sorted_cons h b (List.mem_cons_self _ _)
    have hless : float64Less b a = false := by
      simp [float64Less, lt_eq_decide, isNaN_eq_false, not_lt.mpr hab]
    simp only [Float64sAreSorted, hless, Bool.false_eq_true, if_false]
    exact Float64sAreSorted_of_sorted (b :: rest) (List.Sorted.of_cons h)

theorem Quantile_spec (num den : Nat) (x : List F) (hp : num ≤ den ∧ 0 < den) (hx : x ≠ [])
    (hsorted : x.Sorted (fun a b => a ≤ b)) :
    ∃ q, Quantile num den x = Except.ok q ∧ q ∈ x ∧
      empiricalQuantile num den x.length 0 x = Except.ok q := by
  have hlen : x.length ≠ 0 := by simpa using hx
  have hchain : Float64sAreSorted x = true := Float64sAreSorted_of_sorted x hsorted
  have hreach : num * x.length ≤ (0 + x.length) * den := by
    rw [Nat.zero_add, Nat.mul_comm x.length den]
    exact Nat.mul_le_mul_right _ hp.1
  obtain ⟨q, hq⟩ := empiricalQuantile_ok num den x.length x 0 hx hreach
  refine ⟨q, ?_, empiricalQuantile_mem num den x.length x 0 q hq, hq⟩
  simp only [Quantile, hp, and_self, not_true_eq_false, if_false, hlen, hchain, hq,
    Bool.true_eq_false, HasNaN_eq_false, Bool.false_eq_true]

theorem Median_nil (lib : Lib F) : Median lib [] = Except.error EmptyInputErr := by
  simp [Median, sortedCopy, insertionSort]

theorem Median_ok (lib : Lib F) (data : List F) (h : data ≠ []) :
    ∃ m, Median lib data = Except.ok m := by
  have hlen : (sortedCopy data).length ≠ 0 := by
    rw [sortedCopy, (insertionSort_perm float64Less data).length_eq]; simpa using h
  by_cases hpar : (sortedCopy data).length % 2 = 0
  · simp only [Median, hlen, if_false, hpar, if_true]
    exact ⟨_, rfl⟩
  · simp only [Median, hlen, if_false, hpar]
    exact ⟨_, rfl⟩

theorem Stats_nil (lib : Lib F) (w : World F) :
    Stats lib [] w = (Res.fatal EmptyInputErr, { w with log := w.log ++ [LogLine.fatal EmptyInputErr] }) := by
  simp only [Stats, Median_nil, Prog.bind_run, Prog.bind, checkErr_error]

theorem Stats_run (lib : Lib F) (data : List F) (w : World F) (h : data ≠ []) :
    ∃ final medianVal minVal maxVal quant25 quant50 quant75,
      Median lib data = Except.ok medianVal ∧ Min data = Except.ok minVal ∧
      Max data = Except.ok maxVal ∧
      final.Sorted (fun a b => a ≤ b) ∧ final.Perm data ∧
      Quantile 25 100 final = Except.ok quant25 ∧
      Quantile 50 100 final = Except.ok quant50 ∧
      Quantile 75 100 final = Except.ok quant75 ∧
      minVal ≤ quant25 ∧ quant25 ≤ quant50 ∧ quant50 ≤ quant75 ∧ quant75 ≤ maxVal ∧
      Stats lib data w = (Res.ok final, { w with log := w.log ++
        [LogLine.printfF "Mean: %0.2f" (lib.statMean data),
         LogLine.printfF "Mode val: %0.2f" (lib.statMode data).1,
         LogLine.printfF "Mode cnt: %0.2f" (lib.statMode data).2,
         LogLine.printfF "Median: %0.2f" medianVal,
         LogLine.printfF "Min: %0.2f" minVal,
         LogLine.printfF "Max: %0.2f" maxVal,
         LogLine.printfF "Range: %0.2f" (lib.sub maxVal minVal),
         LogLine.printfF "Variance: %0.2f" (lib.statVariance data),
         LogLine.printfF "Standard Deviation: %0.2f" (lib.statStdDev data),
         LogLine.printfF "25%% quantile: %0.2f" quant25,
         LogLine.printfF "50%% quantile: %0.2f" quant50,
         LogLine.printfF "75%% quantile: %0.2f" quant75] }) := by
  obtain ⟨medianVal, hmed⟩ := Median_ok lib data h
  obtain ⟨minVal, hmin, _, hminle⟩ := Min_spec data h
  obtain ⟨maxVal, hmax, _, hmaxle⟩ := Max_spec data h
  obtain ⟨final, inds, harg, hsorted, hperm⟩ :=
    Argsort_spec data (List.replicate data.length 0) (by simp)
  have hfinal : final ≠ [] := by
    intro hnil
    rw [hnil] at hperm
    exact h (List.Perm.eq_nil hperm.symm)
  obtain ⟨q25, hq25, hm25, he25⟩ := Quantile_spec 25 100 final (by decide) hfinal hsorted
  obtain ⟨q50, hq50, _, he50⟩ := Quantile_spec 50 100 final (by decide) hfinal hsorted
  obtain ⟨q75, hq75, hm75, he75⟩ := Quantile_spec 75 100 final (by decide) hfinal hsorted
  refine ⟨final, medianVal, minVal, maxVal, q25, q50, q75, hmed, hmin, hmax, hsorted, hperm,
    hq25, hq50, hq75, hminle q25 (hperm.subset hm25),
    empiricalQuantile_mono 25 50 100 final.length (by decide) final 0 q25 q50 hsorted he25 he50,
    empiricalQuantile_mono 50 75 100 final.length (by decide) final 0 q50 q75 hsorted he50 he75,
    hmaxle q75 (hperm.subset hm75), ?_⟩
  simp only [Stats, hmed, hmin, hmax, harg, hq25, hq50, hq75, Prog.bind_run, Prog.bind,
    checkErr_ok, liftExcept_ok, logPrintfF_run, Prog.pure_run, List.append_assoc,
    List.singleton_append, List.cons_append, List.nil_append]

end StatsLemmas

/-! ## The series builders -/

section BuilderClaims

variable {F : Type} [Zero F]

/-- C4: for two inputs of equal length `n`, the series a builder returns has exactly `n`
points and its point at index `i` is `(x[i], y[i])` for `buildScatter` and `(t[i], v[i])`
for `buildLine`; the series is returned whenever the library constructor accepts the
points and the colour has its four components. -/
theorem built_series_pairs_inputs_by_index (lib : Lib F) (x y : List F) (col : List Nat)
    (hlen : x.length = y.length) :
    (∀ s : Scatter F, buildScatter lib x y col = Except.ok (Except.ok s) →
      s.XYs.length = x.length ∧
      ∀ (i : Nat) (a b : F), x[i]? = some a → y[i]? = some b → s.XYs[i]? = some (XY.mk a b)) ∧
    (∀ l : Line F, buildLine lib x y col = Except.ok (Except.ok l) →
      l.XYs.length = x.length ∧
      ∀ (i : Nat) (a b : F), x[i]? = some a → y[i]? = some b → l.XYs[i]? = some (XY.mk a b)) ∧
    (4 ≤ col.length → lib.newScatterErr (List.zipWith XY.mk x y) = none →
      ∃ s, buildScatter lib x y col = Except.ok (Except.ok s)) ∧
    (4 ≤ col.length → lib.newLineErr (List.zipWith XY.mk x y) = none →
      ∃ l, buildLine lib x y col = Except.ok (Except.ok l)) := by
  refine ⟨?_, ?_, ?_, ?_⟩
  · intro s hs
    obtain ⟨_, _, hpts, _⟩ := buildScatter_eq_ok lib x y col s hs
    rw [hpts]
    exact ⟨by simp [hlen], fun i a b ha hb => zipWith_pairs x y i a b ha hb⟩
  · intro l hl
    obtain ⟨_, _, hpts, _⟩ := buildLine_eq_ok lib x y col l hl
    rw [hpts]
    exact ⟨by simp [hlen], fun i a b ha hb => zipWith_pairs x y i a b ha hb⟩
  · intro hcol herr
    obtain ⟨r, g, b, a, _, _, _, _, hok⟩ := rgbaOf_ok col hcol
    exact ⟨_, by rw [buildScatter_of_le lib x y col (le_of_eq hlen), herr, hok]⟩
  · intro hcol herr
    obtain ⟨r, g, b, a, _, _, _, _, hok⟩ := rgbaOf_ok col hcol
    exact ⟨_, by rw [buildLine_of_le lib x y col (le_of_eq hlen.symm), herr, hok]⟩

/-- C4, on a concrete input: three points are paired by index. -/
theorem built_series_pairs_inputs_by_index_witness :
    [1, 2, 3].length = [4, 5, 6].length ∧
    buildScatter sampleLib [1, 2, 3] [4, 5, 6] [52, 152, 219, 255]
      = Except.ok (Except.ok ⟨[⟨1, 4⟩, ⟨2, 5⟩, ⟨3, 6⟩], ⟨52, 152, 219, 255⟩⟩) ∧
    ∀ s, buildScatter sampleLib [1, 2, 3] [4, 5, 6] [52, 152, 219, 255]
        = Except.ok (Except.ok s) → s.XYs.length = 3 :=
  ⟨rfl, rfl,
    fun s hs => ((built_series_pairs_inputs_by_index sampleLib [1, 2, 3] [4, 5, 6]
      [52, 152, 219, 255] rfl).1 s hs).1⟩

/-- C2, as stated, fails: a colour of five components is accepted by `buildScatter` and
by `buildLine` (the fifth is never read), and a colour of three components ends the call
in an index-out-of-range panic, not in a returned error. -/
theorem colour_arity_counterexample :
    [1, 2, 3, 4, 5].length ≠ 4 ∧
    buildScatter sampleLib [1] [1] [1, 2, 3, 4, 5]
      = Except.ok (Except.ok ⟨[⟨1, 1⟩], ⟨1, 2, 3, 4⟩⟩) ∧
    buildLine sampleLib [1] [1] [1, 2, 3, 4, 5]
      = Except.ok (Except.ok ⟨[⟨1, 1⟩], ⟨1, 2, 3, 4⟩⟩) ∧
    [1, 2, 3].length ≠ 4 ∧
    buildScatter sampleLib [1] [1] [1, 2, 3] = Except.error (Panic.indexOutOfRange 3 3) ∧
    buildLine sampleLib [1] [1] [1, 2, 3] = Except.error (Panic.indexOutOfRange 3 3) :=
  ⟨by decide, rfl, rfl, by decide, rfl, rfl⟩

/-- C2, amended: the builders read the colour components at indices 0 to 3 and nothing
else.  When the points are built and the library constructor accepts them, every colour
of at least four components is accepted whatever its values are, the series colour being
its first four components; a colour of fewer than four components ends the call in an
index-out-of-range panic at its length. -/
theorem colour_needs_four_leading_components (lib : Lib F) (x y t v : List F) (col : List Nat)
    (hxy : x.length ≤ y.length) (hvt : v.length ≤ t.length)
    (hscatter : lib.newScatterErr (List.zipWith XY.mk x y) = none)
    (hline : lib.newLineErr (List.zipWith XY.mk t v) = none) :
    (4 ≤ col.length → ∃ r g b a,
      col[0]? = some r ∧ col[1]? = some g ∧ col[2]? = some b ∧ col[3]? = some a ∧
      buildScatter lib x y col = Except.ok (Except.ok ⟨List.zipWith XY.mk x y, ⟨r, g, b, a⟩⟩) ∧
      buildLine lib t v col = Except.ok (Except.ok ⟨List.zipWith XY.mk t v, ⟨r, g, b, a⟩⟩)) ∧
    (col.length < 4 →
      buildScatter lib x y col = Except.error (Panic.indexOutOfRange col.length col.length) ∧
      buildLine lib t v col = Except.error (Panic.indexOutOfRange col.length col.length)) := by
  constructor
  · intro hcol
    obtain ⟨r, g, b, a, h0, h1, h2, h3, hok⟩ := rgbaOf_ok col hcol
    refine ⟨r, g, b, a, h0, h1, h2, h3, ?_, ?_⟩
    · rw [buildScatter_of_le lib x y col hxy, hscatter, hok]
    · rw [buildLine_of_le lib t v col hvt, hline, hok]
  · intro hcol
    have hpanic := rgbaOf_panic col hcol
    constructor
    · rw [buildScatter_of_le lib x y col hxy, hscatter, hpanic]
    · rw [buildLine_of_le lib t v col hvt, hline, hpanic]

/-- C2 amended, on concrete inputs: a colour of five components and a colour of two. -/
theorem colour_needs_four_leading_components_witness :
    ([7, 8].length ≤ [1, 2].length ∧ [5].length ≤ [3, 4].length) ∧
    (∃ r g b a, buildScatter sampleLib [7, 8] [1, 2] [300, 0, 9, 255, 77]
      = Except.ok (Except.ok ⟨[⟨7, 1⟩, ⟨8, 2⟩], ⟨r, g, b, a⟩⟩)) ∧
    buildLine sampleLib [3, 4] [5] [1, 2]
      = Except.error (Panic.indexOutOfRange 2 2) :=
  ⟨⟨by decide, by decide⟩,
    (((colour_needs_four_leading_components sampleLib [7, 8] [1, 2] [3, 4] [5]
        [300, 0, 9, 255, 77] (by decide) (by decide) rfl rfl).1 (by decide)).imp
      fun _ hr => hr.imp fun _ hg => hg.imp fun _ hb => hb.imp fun _ ha => ha.2.2.2.2.1),
    ((colour_needs_four_leading_components sampleLib [7, 8] [1, 2] [3, 4] [5]
        [1, 2] (by decide) (by decide) rfl rfl).2 (by decide)).2⟩

theorem Colors_get_cases (name : String) (col : List Nat) (h : Colors.get name = some col) :
    (name, col) ∈ Colors := by
  simp only [Colors.get, Colors, List.find?, Option.map_eq_some'] at h
  obtain ⟨e, he, hcol⟩ := h
  split at he
  · cases he; rename_i heq; simp only [beq_iff_eq] at heq; subst heq hcol; simp [Colors]
  split at he
  · cases he; rename_i heq; simp only [beq_iff_eq] at heq; subst heq hcol; simp [Colors]
  split at he
  · cases he; rename_i heq; simp only [beq_iff_eq] at heq; subst heq hcol; simp [Colors]
  split at he
  · cases he; rename_i heq; simp only [beq_iff_eq] at heq; subst heq hcol; simp [Colors]
  split at he
  · cases he; rename_i heq; simp only [beq_iff_eq] at heq; subst heq hcol; simp [Colors]
  split at he
  · cases he; rename_i heq; simp only [beq_iff_eq] at heq; subst heq hcol; simp [Colors]
  split at he
  · cases he; rename_i heq; simp only [beq_iff_eq] at heq; subst heq hcol; simp [Colors]
  cases he

/-- C8: the table `Colors` has exactly the seven names Blue, Red, Green, Turquoise,
Amethist, Asphalt and Orange, each mapped to its own entry; every entry has exactly four
components, so the four component reads of `buildScatter` and `buildLine` succeed on it
and the series built is coloured with the entry's (R, G, B, A). -/
theorem palette_entries_have_four_components (lib : Lib F) :
    Colors.map Prod.fst
      = ["Blue", "Red", "Green", "Turquoise", "Amethist", "Asphalt", "Orange"] ∧
    (∀ name, (Colors.get name).isSome = true ↔
      name ∈ ["Blue", "Red", "Green", "Turquoise", "Amethist", "Asphalt", "Orange"]) ∧
    (∀ e ∈ Colors, Colors.get e.1 = some e.2) ∧
    (∀ name col, Colors.get name = some col →
      ∃ r g b a, col = [r, g, b, a] ∧ rgbaOf col = Except.ok ⟨r, g, b, a⟩ ∧
        (∀ x y : List F, x.length ≤ y.length →
          lib.newScatterErr (List.zipWith XY.mk x y) = none →
          buildScatter lib x y col
            = Except.ok (Except.ok ⟨List.zipWith XY.mk x y, ⟨r, g, b, a⟩⟩)) ∧
        (∀ t v : List F, v.length ≤ t.length →
          lib.newLineErr (List.zipWith XY.mk t v) = none →
          buildLine lib t v col
            = Except.ok (Except.ok ⟨List.zipWith XY.mk t v, ⟨r, g, b, a⟩⟩))) := by
  have hself : ∀ e ∈ Colors, Colors.get e.1 = some e.2 := by decide
  refine ⟨rfl, ?_, hself, ?_⟩
  · intro name
    constructor
    · intro hsome
      obtain ⟨col, hcol⟩ := Option.isSome_iff_exists.mp hsome
      have hmem := List.mem_map_of_mem Prod.fst (Colors_get_cases name col hcol)
      exact hmem
    · intro hmem
      have hmem2 : name ∈ Colors.map Prod.fst := hmem
      obtain ⟨e, he, hname⟩ := List.mem_map.mp hmem2
      rw [← hname, hself e he]
      rfl
  · intro name col hget
    have hfour : ∀ e ∈ Colors, ∃ r g b a, e.2 = [r, g, b, a] := by
      intro e he
      simp only [Colors, List.mem_cons, List.mem_singleton, List.not_mem_nil, or_false] at he
      rcases he with h | h | h | h | h | h | h <;> subst h <;> exact ⟨_, _, _, _, rfl⟩
    obtain ⟨r, g, b, a, hcol⟩ := hfour (name, col) (Colors_get_cases name col hget)
    simp only at hcol
    subst hcol
    have hok : rgbaOf [r, g, b, a] = Except.ok ⟨r, g, b, a⟩ := by
      simp [rgbaOf, index, bind, Except.bind, pure, Except.pure]
    refine ⟨r, g, b, a, rfl, hok, ?_, ?_⟩
    · intro x y hxy herr
      rw [buildScatter_of_le lib x y _ hxy, herr, hok]
    · intro t v hvt herr
      rw [buildLine_of_le lib t v _ hvt, herr, hok]

end BuilderClaims

/-! ## The renderers -/

section RendererClaims

variable {F : Type} [Zero F]

/-- C3: in each of the six scatter and time-series renderers a failure of `plot.New()` is
returned to the caller, and so is a failure of `p.Save`; an error reported by
`buildScatter` or `buildLine` (the builders before it having succeeded) is not returned:
`checkErr` logs it and the process exits, with no file saved. -/
theorem renderer_error_routes (lib : Lib F) (call : Call F) (w : World F) :
    (∀ e, lib.plotNewErr = some e →
      call.run lib w = (Res.ok (some e), w.plotting call.title)) ∧
    (∀ (pre : List (Plotter F)) (e : GoError) post, lib.plotNewErr = none →
      (call.series lib).map Prod.snd
        = pre.map (fun s => Except.ok (Except.ok s)) ++ Except.ok (Except.error e) :: post →
      call.run lib w = (Res.fatal e, { w with log :=
        w.log ++ [LogLine.printfS "Plotting %s.png" call.title, LogLine.fatal e] })) ∧
    (∀ (ss : List (Plotter F)) (e : GoError), lib.plotNewErr = none →
      (call.series lib).map Prod.snd = ss.map (fun s => Except.ok (Except.ok s)) →
      lib.saveErr (chartOf call.title call.labels ss) (canvasWidth call.isScatter) ⟨15⟩
        (call.title ++ ".png") = some e →
      call.run lib w = (Res.ok (some e), w.plotting call.title)) := by
  refine ⟨?_, ?_, ?_⟩
  · intro e hnew
    rw [Call.run_eq_renderSeries, renderSeries_run, hnew]
  · intro pre e post hnew hseries
    rw [Call.run_eq_renderSeries, hseries, renderSeries_fatal _ _ _ _ _ _ _ _ hnew]
  · intro ss e hnew hseries hsave
    rw [Call.run_eq_renderSeries, hseries, renderSeries_built _ _ _ _ _ _ hnew,
      saveAndReturn_run, hsave]

/-- C3, on concrete runs: a failing `plot.New()` and a failing `p.Save` are returned, a
failing `plotter.NewLine` inside `buildLine` ends the process. -/
theorem renderer_error_routes_witness :
    PlotTime1Vals { sampleLib with plotNewErr := some ⟨"no font"⟩ } [1, 2] [3, 4]
        [52, 152, 219, 255] "t" World.init
      = (Res.ok (some ⟨"no font"⟩), ⟨[LogLine.printfS "Plotting %s.png" "t"], []⟩) ∧
    PlotTime1Vals { sampleLib with newLineErr := fun _ => some ⟨"NaN"⟩ } [1, 2] [3, 4]
        [52, 152, 219, 255] "t" World.init
      = (Res.fatal ⟨"NaN"⟩,
          ⟨[LogLine.printfS "Plotting %s.png" "t", LogLine.fatal ⟨"NaN"⟩], []⟩) ∧
    PlotTime1Vals { sampleLib with saveErr := fun _ _ _ _ => some ⟨"disk full"⟩ } [1, 2] [3, 4]
        [52, 152, 219, 255] "t" World.init
      = (Res.ok (some ⟨"disk full"⟩), ⟨[LogLine.printfS "Plotting %s.png" "t"], []⟩) :=
  ⟨(renderer_error_routes { sampleLib with plotNewErr := some ⟨"no font"⟩ }
      (Call.time1 [1, 2] [3, 4] [52, 152, 219, 255] "t") World.init).1 ⟨"no font"⟩ rfl,
    (renderer_error_routes { sampleLib with newLineErr := fun _ => some ⟨"NaN"⟩ }
      (Call.time1 [1, 2] [3, 4] [52, 152, 219, 255] "t") World.init).2.1 [] ⟨"NaN"⟩ [] rfl rfl,
    (renderer_error_routes { sampleLib with saveErr := fun _ _ _ _ => some ⟨"disk full"⟩ }
      (Call.time1 [1, 2] [3, 4] [52, 152, 219, 255] "t") World.init).2.2
      [Plotter.line ⟨[⟨1, 3⟩, ⟨2, 4⟩], ⟨52, 152, 219, 255⟩⟩] ⟨"disk full"⟩ rfl rfl rfl⟩

/-- C5: in each of the six scatter and time-series renderers, when `plot.New()` succeeds
and every supplied series is accepted (a colour of at least four components, coordinate
sequences the loop can index, points the library constructor takes), the chart handed to
`p.Save` holds one series and one legend entry per supplied series, in the order
supplied.  The series at position `i` pairs the supplied coordinates by index and is
drawn with the colour RGBA(c[0], c[1], c[2], c[3]) of the colour `c` supplied at that
position, and the legend entry at position `i` carries the label "x<i>, y<i>" (scatter)
or "v<i>" (time series) and that same series. -/
theorem series_colour_and_legend (lib : Lib F) (call : Call F) (w : World F)
    (hnew : lib.plotNewErr = none)
    (hacc : ∀ x y col, (x, y, col) ∈ call.supplied →
      seriesAccepted lib call.isScatter x y col) :
    ∃ plot : Plot F,
      call.run lib w = saveAndReturn lib plot (canvasWidth call.isScatter) ⟨15⟩ call.title
        (w.plotting call.title) ∧
      plot.plotters.length = call.supplied.length ∧
      plot.Legend.length = call.supplied.length ∧
      ∀ (i : Nat) (x y : List F) (col : List Nat), call.supplied[i]? = some (x, y, col) →
        ∃ (s : Plotter F) (rgba : RGBA),
          buildSeries lib call.isScatter x y col = Except.ok (Except.ok s) ∧
          s.points = List.zipWith XY.mk x y ∧
          col[0]? = some rgba.R ∧ col[1]? = some rgba.G ∧ col[2]? = some rgba.B ∧
          col[3]? = some rgba.A ∧ s.color = some rgba ∧ plot.plotters[i]? = some s ∧
          plot.Legend[i]? = some (legendLabel call.isScatter (i + 1), s) := by
  refine ⟨_, Call.run_accepted lib call w hnew hacc, ?_, ?_, ?_⟩
  · simp [chartOf]
  · simp [chartOf, Call.labels_length lib call, Call.supplied_length lib call]
  · intro i x y col hi
    have hmem : (x, y, col) ∈ call.supplied := List.getElem?_mem hi
    have hok := hacc x y col hmem
    have hlt : i < (call.series lib).length := by
      rw [Call.supplied_length]
      by_contra hge
      rw [List.getElem?_eq_none (by omega)] at hi
      cases hi
    obtain ⟨h0, h1, h2, h3⟩ := rgbaOf_eq_ok col (colourOf col) (rgbaOf_colourOf col hok.1)
    have hs : (call.supplied.map
        (fun t => expectedSeries call.isScatter t.1 t.2.1 t.2.2))[i]?
          = some (expectedSeries call.isScatter x y col) := by
      rw [List.getElem?_map, hi]; rfl
    refine ⟨expectedSeries call.isScatter x y col, colourOf col,
      buildSeries_accepted lib call.isScatter x y col hok, ?_, h0, h1, h2, h3, ?_, hs, ?_⟩
    · cases call.isScatter <;> rfl
    · cases call.isScatter <;> rfl
    · simp only [chartOf]
      rw [List.getElem?_zip_eq_some]
      exact ⟨Call.labels_getElem lib call i hlt, hs⟩

/-- C5, on a concrete call of `PlotScatterXY2Var` and one of `PlotTime2Vals`. -/
theorem series_colour_and_legend_witness :
    sampleLib.plotNewErr = none ∧
    (∃ plot : Plot Int,
      PlotScatterXY2Var sampleLib [1, 2] [3, 4] [5] [6] [52, 152, 219, 255] [231, 76, 60, 255]
          "t" World.init
        = saveAndReturn sampleLib plot ⟨30⟩ ⟨15⟩ "t" (World.init.plotting "t") ∧
      plot.plotters.length = 2 ∧ plot.Legend.length = 2) ∧
    (∃ plot : Plot Int,
      PlotTime2Vals sampleLib [1, 2] [3, 4] [5, 6] [52, 152, 219, 255] [231, 76, 60, 255]
          "t" World.init
        = saveAndReturn sampleLib plot ⟨60⟩ ⟨15⟩ "t" (World.init.plotting "t") ∧
      plot.plotters.length = 2 ∧ plot.Legend.length = 2) ∧
    (PlotTime2Vals sampleLib [1, 2] [3, 4] [5, 6] [52, 152, 219, 255] [231, 76, 60, 255]
        "t" World.init).2.files.map (fun f => f.plot.Legend)
      = [[("v1", Plotter.line ⟨[⟨1, 3⟩, ⟨2, 4⟩], ⟨52, 152, 219, 255⟩⟩),
          ("v2", Plotter.line ⟨[⟨1, 5⟩, ⟨2, 6⟩], ⟨231, 76, 60, 255⟩⟩)]] :=
  ⟨rfl,
    (series_colour_and_legend sampleLib
      (Call.scatter2 [1, 2] [3, 4] [5] [6] [52, 152, 219, 255] [231, 76, 60, 255] "t")
      World.init rfl (by
        intro x y col h
        simp only [Call.supplied, List.mem_cons, List.mem_singleton, Prod.mk.injEq,
          List.not_mem_nil, or_false] at h
        rcases h with ⟨hx, hy, hc⟩ | ⟨hx, hy, hc⟩ <;> subst hx hy hc <;>
          exact ⟨by decide, by decide, rfl⟩)).imp
      fun _ h => ⟨h.1, h.2.1, h.2.2.1⟩,
    (series_colour_and_legend sampleLib
      (Call.time2 [1, 2] [3, 4] [5, 6] [52, 152, 219, 255] [231, 76, 60, 255] "t")
      World.init rfl (by
        intro x y col h
        simp only [Call.supplied, List.mem_cons, List.mem_singleton, Prod.mk.injEq,
          List.not_mem_nil, or_false] at h
        rcases h with ⟨hx, hy, hc⟩ | ⟨hx, hy, hc⟩ <;> subst hx hy hc <;>
          exact ⟨by decide, by decide, rfl⟩)).imp
      fun _ h => ⟨h.1, h.2.1, h.2.2.1⟩,
    rfl⟩

/-- C9: every renderer saves to the file named by the title followed by ".png", on a
canvas fixed by its chart kind.  When `plot.New()` succeeds, every supplied series is
accepted (for `PlotHistogram`: `plotter.NewHist` returns a histogram) and the save
succeeds, the renderer returns nil having saved exactly that file, 30 by 15 cm for the
scatter renderers, 60 by 15 cm for the time-series renderers and 15 by 15 cm for
`PlotHistogram`; the chart saved carries the given title unchanged, the axis labels "x"
and "y" for scatter and time series, and for the histogram the labels of the fresh plot,
which are empty.  No renderer saves any other file. -/
theorem renderer_output_file (lib : Lib F) (w : World F) :
    (∀ call : Call F, lib.plotNewErr = none →
      (∀ x y col, (x, y, col) ∈ call.supplied → seriesAccepted lib call.isScatter x y col) →
      (∀ p, lib.saveErr p (if call.isScatter then ⟨30⟩ else ⟨60⟩) ⟨15⟩
        (call.title ++ ".png") = none) →
      ∃ plot : Plot F,
        call.run lib w = (Res.ok none, (w.plotting call.title).saved
          ⟨call.title ++ ".png", if call.isScatter then ⟨30⟩ else ⟨60⟩, ⟨15⟩, plot⟩) ∧
        plot.Title = call.title ∧ plot.XLabel = "x" ∧ plot.YLabel = "y") ∧
    (∀ (v : List F) (title : String), lib.plotNewErr = none → lib.newHistErr v 100 = none →
      (∀ p, lib.saveErr p ⟨15⟩ ⟨15⟩ (title ++ ".png") = none) →
      ∃ plot fresh : Plot F,
        PlotHistogram lib v title w = (Res.ok none, (w.plotting title).saved
          ⟨title ++ ".png", ⟨15⟩, ⟨15⟩, plot⟩) ∧
        New lib = Except.ok fresh ∧ plot.Title = title ∧
        plot.XLabel = fresh.XLabel ∧ plot.YLabel = fresh.YLabel ∧
        plot.XLabel = "" ∧ plot.YLabel = "") ∧
    (∀ (call : Call F) (f : File F), f ∈ (call.run lib w).2.files →
      f ∈ w.files ∨
        (f.name = call.title ++ ".png" ∧ f.w = (if call.isScatter then ⟨30⟩ else ⟨60⟩) ∧
          f.h = ⟨15⟩ ∧ f.plot.Title = call.title ∧ f.plot.XLabel = "x" ∧
          f.plot.YLabel = "y")) ∧
    (∀ (v : List F) (title : String) (f : File F),
      f ∈ (PlotHistogram lib v title w).2.files →
      f ∈ w.files ∨
        (f.name = title ++ ".png" ∧ f.w = ⟨15⟩ ∧ f.h = ⟨15⟩ ∧ f.plot.Title = title ∧
          f.plot.XLabel = "" ∧ f.plot.YLabel = "")) := by
  refine ⟨?_, ?_, ?_, ?_⟩
  · intro call hnew hacc hsave
    refine ⟨chartOf call.title call.labels
      (call.supplied.map (fun t => expectedSeries call.isScatter t.1 t.2.1 t.2.2)),
      ?_, rfl, rfl, rfl⟩
    rw [Call.run_accepted lib call w hnew hacc, saveAndReturn_run]
    have hs := hsave (chartOf call.title call.labels
      (call.supplied.map (fun t => expectedSeries call.isScatter t.1 t.2.1 t.2.2)))
    simp only [canvasWidth]
    rw [hs]
  · intro v title hnew hhist hsave
    refine ⟨⟨title, "", "", [], [Plotter.hist ⟨v, 100, some 1⟩]⟩, ⟨"", "", "", [], []⟩, ?_,
      by simp only [New, hnew], rfl, rfl, rfl, rfl, rfl⟩
    rw [PlotHistogram_run, hnew, hhist]
    simp only [saveAndReturn_run, hsave]
  · intro call f hf
    rw [Call.run_eq_renderSeries, renderSeries_run] at hf
    cases hnew : lib.plotNewErr with
    | some err => rw [hnew] at hf; exact Or.inl hf
    | none =>
      rw [hnew] at hf
      rcases buildAll_cases ((call.series lib).map Prod.snd) (w.plotting call.title)
        with ⟨ss, _, hrun⟩ | ⟨e, hrun⟩ | ⟨p, hrun⟩
      · simp only [hrun, saveAndReturn_run] at hf
        cases hsave : lib.saveErr (chartOf call.title call.labels ss)
          (canvasWidth call.isScatter) ⟨15⟩ (call.title ++ ".png") with
        | some err => rw [hsave] at hf; exact Or.inl hf
        | none =>
          rw [hsave] at hf
          simp only [World.saved, World.plotting, List.mem_append, List.mem_singleton] at hf
          rcases hf with hf | hf
          · exact Or.inl hf
          · subst hf
            exact Or.inr ⟨rfl, rfl, rfl, rfl, rfl, rfl⟩
      · simp only [hrun] at hf
        exact Or.inl hf
      · simp only [hrun] at hf
        exact Or.inl hf
  · intro v title f hf
    rw [PlotHistogram_run] at hf
    cases hnew : lib.plotNewErr with
    | some err => rw [hnew] at hf; exact Or.inl hf
    | none =>
      rw [hnew] at hf
      cases hhist : lib.newHistErr v 100 with
      | some err => rw [hhist] at hf; exact Or.inl hf
      | none =>
        rw [hhist] at hf
        simp only [saveAndReturn_run] at hf
        cases hsave : lib.saveErr
          { Title := title, XLabel := "", YLabel := "", Legend := [],
            plotters := [Plotter.hist ⟨v, 100, some 1⟩] } ⟨15⟩ ⟨15⟩ (title ++ ".png") with
        | some err => rw [hsave] at hf; exact Or.inl hf
        | none =>
          rw [hsave] at hf
          simp only [World.saved, World.plotting, List.mem_append, List.mem_singleton] at hf
          rcases hf with hf | hf
          · exact Or.inl hf
          · subst hf
            exact Or.inr ⟨rfl, rfl, rfl, rfl, rfl, rfl⟩

/-- C9, on concrete runs: the files the three chart kinds save for the title "t". -/
theorem renderer_output_file_witness :
    (PlotHistogram sampleLib [1, 2, 2] "t" World.init).2.files
      = [⟨"t.png", ⟨15⟩, ⟨15⟩, ⟨"t", "", "", [], [Plotter.hist ⟨[1, 2, 2], 100, some 1⟩]⟩⟩] ∧
    ((PlotScatterXY1Var sampleLib [1] [2] [52, 152, 219, 255] "t" World.init).2.files.map
      fun f => (f.name, f.w, f.h, f.plot.Title, f.plot.XLabel, f.plot.YLabel))
      = [("t.png", ⟨30⟩, ⟨15⟩, "t", "x", "y")] ∧
    ((PlotTime3Vals sampleLib [1] [2] [3] [4] [52, 152, 219, 255] [231, 76, 60, 255]
        [22, 160, 133, 255] "t" World.init).2.files.map
      fun f => (f.name, f.w, f.h, f.plot.Title, f.plot.XLabel, f.plot.YLabel))
      = [("t.png", ⟨60⟩, ⟨15⟩, "t", "x", "y")] ∧
    (∃ plot fresh : Plot Int,
      PlotHistogram sampleLib [1, 2, 2] "t" World.init
        = (Res.ok none, (World.init.plotting "t").saved ⟨"t.png", ⟨15⟩, ⟨15⟩, plot⟩) ∧
      New sampleLib = Except.ok fresh ∧ plot.Title = "t") ∧
    ∃ plot : Plot Int,
      PlotTime1Vals sampleLib [1] [2] [52, 152, 219, 255] "t" World.init
        = (Res.ok none, (World.init.plotting "t").saved ⟨"t.png", ⟨60⟩, ⟨15⟩, plot⟩) :=
  ⟨rfl, rfl, rfl,
    ((renderer_output_file sampleLib World.init).2.1 [1, 2, 2] "t" rfl rfl
      (fun _ => rfl)).imp fun _ h => h.imp fun _ hh => ⟨hh.1, hh.2.1, hh.2.2.1⟩,
    ((renderer_output_file sampleLib World.init).1
      (Call.time1 [1] [2] [52, 152, 219, 255] "t") rfl
      (by
        intro x y col h
        simp only [Call.supplied, List.mem_singleton, Prod.mk.injEq] at h
        obtain ⟨hx, hy, hc⟩ := h
        subst hx hy hc
        exact ⟨by decide, by decide, rfl⟩)
      (fun _ => rfl)).imp fun _ h => h.1⟩

/-- C1, as stated, fails: with three timestamps and two values `PlotTime1Vals` reports
no error at all and saves the file, the line being drawn through the first two
timestamps. -/
theorem time_series_mismatch_counterexample :
    [10, 20].length ≠ [1, 2, 3].length ∧
    PlotTime1Vals sampleLib [1, 2, 3] [10, 20] [52, 152, 219, 255] "t" World.init
      = (Res.ok none,
          ⟨[LogLine.printfS "Plotting %s.png" "t"],
           [⟨"t.png", ⟨60⟩, ⟨15⟩,
             ⟨"t", "x", "y",
              [("v1", Plotter.line ⟨[⟨1, 10⟩, ⟨2, 20⟩], ⟨52, 152, 219, 255⟩⟩)],
              [Plotter.line ⟨[⟨1, 10⟩, ⟨2, 20⟩], ⟨52, 152, 219, 255⟩⟩]⟩⟩]⟩) :=
  ⟨by decide, rfl⟩

/-- C1, amended: a time-series renderer does not compare lengths.  In each of
`PlotTime1Vals`, `PlotTime2Vals` and `PlotTime3Vals`, when `plot.New()` succeeds, the
series before it are accepted and a value sequence is longer than the timestamp sequence,
the call ends in an index-out-of-range panic at the length of the timestamps, not in an
error, and no file is saved; whenever some value sequence is longer, the call does not
return nil and saves nothing.  Value sequences no longer than the timestamps are not
rejected: when every series is accepted and the save succeeds, the call returns nil and
saves the file, each line being drawn through the first `len(values)` timestamps. -/
theorem time_series_length_mismatch (lib : Lib F) (timestamp v1 v2 v3 : List F)
    (c1 c2 c3 : List Nat) (title : String) (w : World F) :
    (lib.plotNewErr = none →
      (timestamp.length < v1.length →
        PlotTime1Vals lib timestamp v1 c1 title w
          = (Res.panic (Panic.indexOutOfRange timestamp.length timestamp.length),
              w.plotting title) ∧
        PlotTime2Vals lib timestamp v1 v2 c1 c2 title w
          = (Res.panic (Panic.indexOutOfRange timestamp.length timestamp.length),
              w.plotting title) ∧
        PlotTime3Vals lib timestamp v1 v2 v3 c1 c2 c3 title w
          = (Res.panic (Panic.indexOutOfRange timestamp.length timestamp.length),
              w.plotting title)) ∧
      (seriesAccepted lib false timestamp v1 c1 → timestamp.length < v2.length →
        PlotTime2Vals lib timestamp v1 v2 c1 c2 title w
          = (Res.panic (Panic.indexOutOfRange timestamp.length timestamp.length),
              w.plotting title) ∧
        PlotTime3Vals lib timestamp v1 v2 v3 c1 c2 c3 title w
          = (Res.panic (Panic.indexOutOfRange timestamp.length timestamp.length),
              w.plotting title)) ∧
      (seriesAccepted lib false timestamp v1 c1 → seriesAccepted lib false timestamp v2 c2 →
        timestamp.length < v3.length →
        PlotTime3Vals lib timestamp v1 v2 v3 c1 c2 c3 title w
          = (Res.panic (Panic.indexOutOfRange timestamp.length timestamp.length),
              w.plotting title))) ∧
    (timestamp.length < v1.length →
      (PlotTime1Vals lib timestamp v1 c1 title w).1 ≠ Res.ok none ∧
      (PlotTime1Vals lib timestamp v1 c1 title w).2.files = w.files) ∧
    (timestamp.length < v1.length ∨ timestamp.length < v2.length →
      (PlotTime2Vals lib timestamp v1 v2 c1 c2 title w).1 ≠ Res.ok none ∧
      (PlotTime2Vals lib timestamp v1 v2 c1 c2 title w).2.files = w.files) ∧
    (timestamp.length < v1.length ∨ timestamp.length < v2.length ∨
        timestamp.length < v3.length →
      (PlotTime3Vals lib timestamp v1 v2 v3 c1 c2 c3 title w).1 ≠ Res.ok none ∧
      (PlotTime3Vals lib timestamp v1 v2 v3 c1 c2 c3 title w).2.files = w.files) ∧
    (lib.plotNewErr = none → (∀ p a b n, lib.saveErr p a b n = none) →
      (seriesAccepted lib false timestamp v1 c1 →
        (List.zipWith XY.mk timestamp v1).length = v1.length ∧
        PlotTime1Vals lib timestamp v1 c1 title w
          = (Res.ok none, (w.plotting title).saved ⟨title ++ ".png", ⟨60⟩, ⟨15⟩,
              chartOf title ["v1"]
                [Plotter.line ⟨List.zipWith XY.mk timestamp v1, colourOf c1⟩]⟩)) ∧
      (seriesAccepted lib false timestamp v1 c1 → seriesAccepted lib false timestamp v2 c2 →
        (List.zipWith XY.mk timestamp v2).length = v2.length ∧
        PlotTime2Vals lib timestamp v1 v2 c1 c2 title w
          = (Res.ok none, (w.plotting title).saved ⟨title ++ ".png", ⟨60⟩, ⟨15⟩,
              chartOf title ["v1", "v2"]
                [Plotter.line ⟨List.zipWith XY.mk timestamp v1, colourOf c1⟩,
                 Plotter.line ⟨List.zipWith XY.mk timestamp v2, colourOf c2⟩]⟩)) ∧
      (seriesAccepted lib false timestamp v1 c1 → seriesAccepted lib false timestamp v2 c2 →
        seriesAccepted lib false timestamp v3 c3 →
        (List.zipWith XY.mk timestamp v3).length = v3.length ∧
        PlotTime3Vals lib timestamp v1 v2 v3 c1 c2 c3 title w
          = (Res.ok none, (w.plotting title).saved ⟨title ++ ".png", ⟨60⟩, ⟨15⟩,
              chartOf title ["v1", "v2", "v3"]
                [Plotter.line ⟨List.zipWith XY.mk timestamp v1, colourOf c1⟩,
                 Plotter.line ⟨List.zipWith XY.mk timestamp v2, colourOf c2⟩,
                 Plotter.line ⟨List.zipWith XY.mk timestamp v3, colourOf c3⟩]⟩))) := by
  have hlong : ∀ (v : List F) (c : List Nat), timestamp.length < v.length →
      linePlotter (buildLine lib timestamp v c)
        = Except.error (Panic.indexOutOfRange timestamp.length timestamp.length) := by
    intro v c h
    rw [buildLine_of_lt lib timestamp v c h]
    rfl
  have hgood : ∀ (v : List F) (c : List Nat), seriesAccepted lib false timestamp v c →
      linePlotter (buildLine lib timestamp v c)
        = Except.ok (Except.ok (Plotter.line ⟨List.zipWith XY.mk timestamp v, colourOf c⟩)) := by
    intro v c h
    have hb := buildSeries_accepted lib false timestamp v c h
    simpa only [buildSeries, expectedSeries, Bool.false_eq_true, if_false] using hb
  have hzip : ∀ (v : List F) (c : List Nat), seriesAccepted lib false timestamp v c →
      (List.zipWith XY.mk timestamp v).length = v.length := by
    intro v c h
    have hle : v.length ≤ timestamp.length := by
      have := h.2
      simp only [Bool.false_eq_true, if_false] at this
      exact this.1
    simp [hle]
  have e1 := PlotTime1Vals_shape lib timestamp v1 c1 title
  have e2 := PlotTime2Vals_shape lib timestamp v1 v2 c1 c2 title
  have e3 := PlotTime3Vals_shape lib timestamp v1 v2 v3 c1 c2 c3 title
  refine ⟨?_, ?_, ?_, ?_, ?_⟩
  · intro hnew
    refine ⟨?_, ?_, ?_⟩
    · intro h1
      refine ⟨?_, ?_, ?_⟩
      · rw [e1, hlong v1 c1 h1]
        exact renderSeries_panic lib title ⟨60⟩ _ [] _ [] w hnew
      · rw [e2, hlong v1 c1 h1]
        exact renderSeries_panic lib title ⟨60⟩ _ [] _ [_] w hnew
      · rw [e3, hlong v1 c1 h1]
        exact renderSeries_panic lib title ⟨60⟩ _ [] _ [_, _] w hnew
    · intro a1 h2
      refine ⟨?_, ?_⟩
      · rw [e2, hgood v1 c1 a1, hlong v2 c2 h2]
        exact renderSeries_panic lib title ⟨60⟩ _ [_] _ [] w hnew
      · rw [e3, hgood v1 c1 a1, hlong v2 c2 h2]
        exact renderSeries_panic lib title ⟨60⟩ _ [_] _ [_] w hnew
    · intro a1 a2 h3
      rw [e3, hgood v1 c1 a1, hgood v2 c2 a2, hlong v3 c3 h3]
      exact renderSeries_panic lib title ⟨60⟩ _ [_, _] _ [] w hnew
  · intro h1
    exact Call.run_unbuilt lib (Call.time1 timestamp v1 c1 title) w
      ⟨_, List.mem_cons_self _ _, linePlotter_of_lt lib timestamp v1 c1 h1⟩
  · intro h
    apply Call.run_unbuilt lib (Call.time2 timestamp v1 v2 c1 c2 title) w
    rcases h with h | h
    · exact ⟨_, List.mem_cons_self _ _, linePlotter_of_lt lib timestamp v1 c1 h⟩
    · exact ⟨_, List.mem_cons_of_mem _ (List.mem_cons_self _ _),
        linePlotter_of_lt lib timestamp v2 c2 h⟩
  · intro h
    apply Call.run_unbuilt lib (Call.time3 timestamp v1 v2 v3 c1 c2 c3 title) w
    rcases h with h | h | h
    · exact ⟨_, List.mem_cons_self _ _, linePlotter_of_lt lib timestamp v1 c1 h⟩
    · exact ⟨_, List.mem_cons_of_mem _ (List.mem_cons_self _ _),
        linePlotter_of_lt lib timestamp v2 c2 h⟩
    · exact ⟨_, List.mem_cons_of_mem _ (List.mem_cons_of_mem _ (List.mem_cons_self _ _)),
        linePlotter_of_lt lib timestamp v3 c3 h⟩
  · intro hnew hsave
    refine ⟨?_, ?_, ?_⟩
    · intro a1
      refine ⟨hzip v1 c1 a1, ?_⟩
      rw [e1, hgood v1 c1 a1]
      have hb := renderSeries_built lib title ⟨60⟩ ["v1"]
        [Plotter.line ⟨List.zipWith XY.mk timestamp v1, colourOf c1⟩] w hnew
      simp only [List.map_cons, List.map_nil] at hb
      rw [hb, saveAndReturn_run, hsave]
    · intro a1 a2
      refine ⟨hzip v2 c2 a2, ?_⟩
      rw [e2, hgood v1 c1 a1, hgood v2 c2 a2]
      have hb := renderSeries_built lib title ⟨60⟩ ["v1", "v2"]
        [Plotter.line ⟨List.zipWith XY.mk timestamp v1, colourOf c1⟩,
         Plotter.line ⟨List.zipWith XY.mk timestamp v2, colourOf c2⟩] w hnew
      simp only [List.map_cons, List.map_nil] at hb
      rw [hb, saveAndReturn_run, hsave]
    · intro a1 a2 a3
      refine ⟨hzip v3 c3 a3, ?_⟩
      rw [e3, hgood v1 c1 a1, hgood v2 c2 a2, hgood v3 c3 a3]
      have hb := renderSeries_built lib title ⟨60⟩ ["v1", "v2", "v3"]
        [Plotter.line ⟨List.zipWith XY.mk timestamp v1, colourOf c1⟩,
         Plotter.line ⟨List.zipWith XY.mk timestamp v2, colourOf c2⟩,
         Plotter.line ⟨List.zipWith XY.mk timestamp v3, colourOf c3⟩] w hnew
      simp only [List.map_cons, List.map_nil] at hb
      rw [hb, saveAndReturn_run, hsave]

/-- C1 amended, on concrete runs: a value sequence of four against three timestamps in
the first, second and third position, and value sequences of two against three
timestamps. -/
theorem time_series_length_mismatch_witness :
    PlotTime1Vals sampleLib [1, 2, 3] [10, 20, 30, 40] [52, 152, 219, 255] "t" World.init
      = (Res.panic (Panic.indexOutOfRange 3 3), ⟨[LogLine.printfS "Plotting %s.png" "t"], []⟩) ∧
    PlotTime2Vals sampleLib [1, 2, 3] [10, 20, 30] [10, 20, 30, 40] [52, 152, 219, 255]
        [231, 76, 60, 255] "t" World.init
      = (Res.panic (Panic.indexOutOfRange 3 3), ⟨[LogLine.printfS "Plotting %s.png" "t"], []⟩) ∧
    PlotTime3Vals sampleLib [1, 2, 3] [10, 20, 30] [10, 20] [10, 20, 30, 40]
        [52, 152, 219, 255] [231, 76, 60, 255] [22, 160, 133, 255] "t" World.init
      = (Res.panic (Panic.indexOutOfRange 3 3), ⟨[LogLine.printfS "Plotting %s.png" "t"], []⟩) ∧
    (PlotTime3Vals sampleLib [1, 2, 3] [10, 20] [10] [] [52, 152, 219, 255]
        [231, 76, 60, 255] [22, 160, 133, 255] "t" World.init).2.files
      = [⟨"t.png", ⟨60⟩, ⟨15⟩, chartOf "t" ["v1", "v2", "v3"]
          [Plotter.line ⟨[⟨1, 10⟩, ⟨2, 20⟩], ⟨52, 152, 219, 255⟩⟩,
           Plotter.line ⟨[⟨1, 10⟩], ⟨231, 76, 60, 255⟩⟩,
           Plotter.line ⟨[], ⟨22, 160, 133, 255⟩⟩]⟩] :=
  ⟨(((time_series_length_mismatch sampleLib [1, 2, 3] [10, 20, 30, 40] [] []
      [52, 152, 219, 255] [] [] "t" World.init).1 rfl).1 (by decide)).1,
    (((time_series_length_mismatch sampleLib [1, 2, 3] [10, 20, 30] [10, 20, 30, 40] []
      [52, 152, 219, 255] [231, 76, 60, 255] [] "t" World.init).1 rfl).2.1
      ⟨by decide, by decide, rfl⟩ (by decide)).1,
    ((time_series_length_mismatch sampleLib [1, 2, 3] [10, 20, 30] [10, 20] [10, 20, 30, 40]
      [52, 152, 219, 255] [231, 76, 60, 255] [22, 160, 133, 255] "t" World.init).1 rfl).2.2
      ⟨by decide, by decide, rfl⟩ ⟨by decide, by decide, rfl⟩ (by decide),
    congrArg (fun out => out.2.files)
      (((time_series_length_mismatch sampleLib [1, 2, 3] [10, 20] [10] []
        [52, 152, 219, 255] [231, 76, 60, 255] [22, 160, 133, 255] "t" World.init).2.2.2.2
        rfl (fun _ _ _ _ => rfl)).2.2 ⟨by decide, by decide, rfl⟩ ⟨by decide, by decide, rfl⟩
        ⟨by decide, by decide, rfl⟩).2⟩

end RendererClaims

/-! ## The statistics report -/

section ReportClaims

variable {F : Type} [LinearOrder F] [Zero F]

/-- C6: for every non-empty sample sequence the values `Stats` computes and logs satisfy
minVal <= quant25 <= quant50 <= quant75 <= maxVal, the minimum and maximum being taken
over the data as passed and the three quantiles with the empirical convention over the
data after `Stats` has sorted it. -/
theorem quantiles_between_min_and_max (lib : Lib F) (data : List F) (w : World F)
    (hdata : data ≠ []) :
    ∃ final minVal maxVal quant25 quant50 quant75,
      (Stats lib data w).1 = Res.ok final ∧
      final.Sorted (fun a b => a ≤ b) ∧ final.Perm data ∧
      Min data = Except.ok minVal ∧ Max data = Except.ok maxVal ∧
      Quantile 25 100 final = Except.ok quant25 ∧
      Quantile 50 100 final = Except.ok quant50 ∧
      Quantile 75 100 final = Except.ok quant75 ∧
      LogLine.printfF "Min: %0.2f" minVal ∈ (Stats lib data w).2.log ∧
      LogLine.printfF "Max: %0.2f" maxVal ∈ (Stats lib data w).2.log ∧
      LogLine.printfF "25%% quantile: %0.2f" quant25 ∈ (Stats lib data w).2.log ∧
      LogLine.printfF "50%% quantile: %0.2f" quant50 ∈ (Stats lib data w).2.log ∧
      LogLine.printfF "75%% quantile: %0.2f" quant75 ∈ (Stats lib data w).2.log ∧
      minVal ≤ quant25 ∧ quant25 ≤ quant50 ∧ quant50 ≤ quant75 ∧ quant75 ≤ maxVal := by
  obtain ⟨final, medianVal, minVal, maxVal, q25, q50, q75, _, hmin, hmax, hsorted, hperm,
    hq25, hq50, hq75, h1, h2, h3, h4, hrun⟩ := Stats_run lib data w hdata
  refine ⟨final, minVal, maxVal, q25, q50, q75, by rw [hrun], hsorted, hperm, hmin, hmax,
    hq25, hq50, hq75, ?_, ?_, ?_, ?_, ?_, h1, h2, h3, h4⟩ <;>
  · rw [hrun]
    simp

/-- C6, on the sample 1, 2, 2, 3, 4 given out of order. -/
theorem quantiles_between_min_and_max_witness :
    ([4, 2, 1, 3, 2] : List Int) ≠ [] ∧
    Min ([4, 2, 1, 3, 2] : List Int) = Except.ok 1 ∧
    Max ([4, 2, 1, 3, 2] : List Int) = Except.ok 4 ∧
    Quantile 25 100 ([1, 2, 2, 3, 4] : List Int) = Except.ok 2 ∧
    Quantile 50 100 ([1, 2, 2, 3, 4] : List Int) = Except.ok 2 ∧
    Quantile 75 100 ([1, 2, 2, 3, 4] : List Int) = Except.ok 3 ∧
    ∃ final : List Int, (Stats sampleLib [4, 2, 1, 3, 2] World.init).1 = Res.ok final :=
  ⟨by decide, rfl, rfl, rfl, rfl, rfl,
    (quantiles_between_min_and_max sampleLib [4, 2, 1, 3, 2] World.init (by decide)).imp
      fun _ h => let ⟨_, _, _, _, _, hrun, _⟩ := h; hrun⟩

/-- C7: `Stats` ends the process exactly when `data` is empty.  On the empty sequence the
median computation fails, `checkErr` logs the error and exits, and none of the twelve
report lines is written; on every non-empty sequence `Stats` returns, neither exiting nor
panicking, and writes the twelve report lines in order. -/
theorem Stats_exits_iff_empty (lib : Lib F) (data : List F) (w : World F) :
    (data = [] →
      Median lib data = Except.error EmptyInputErr ∧
      Stats lib data w
        = (Res.fatal EmptyInputErr, { w with log := w.log ++ [LogLine.fatal EmptyInputErr] })) ∧
    (data ≠ [] → ∃ final lines,
      Stats lib data w = (Res.ok final, { w with log := w.log ++ lines }) ∧
      lines.map LogLine.format =
        [some "Mean: %0.2f", some "Mode val: %0.2f", some "Mode cnt: %0.2f",
         some "Median: %0.2f", some "Min: %0.2f", some "Max: %0.2f", some "Range: %0.2f",
         some "Variance: %0.2f", some "Standard Deviation: %0.2f",
         some "25%% quantile: %0.2f", some "50%% quantile: %0.2f",
         some "75%% quantile: %0.2f"]) ∧
    ((∃ e, (Stats lib data w).1 = Res.fatal e) ↔ data = []) ∧
    ((∃ final, (Stats lib data w).1 = Res.ok final) ↔ data ≠ []) := by
  have hempty : data = [] → Median lib data = Except.error EmptyInputErr ∧
      Stats lib data w
        = (Res.fatal EmptyInputErr, { w with log := w.log ++ [LogLine.fatal EmptyInputErr] }) := by
    intro h
    subst h
    exact ⟨Median_nil lib, Stats_nil lib w⟩
  have hfull : data ≠ [] → ∃ final lines,
      Stats lib data w = (Res.ok final, { w with log := w.log ++ lines }) ∧
      lines.map LogLine.format =
        [some "Mean: %0.2f", some "Mode val: %0.2f", some "Mode cnt: %0.2f",
         some "Median: %0.2f", some "Min: %0.2f", some "Max: %0.2f", some "Range: %0.2f",
         some "Variance: %0.2f", some "Standard Deviation: %0.2f",
         some "25%% quantile: %0.2f", some "50%% quantile: %0.2f",
         some "75%% quantile: %0.2f"] := by
    intro h
    obtain ⟨final, medianVal, minVal, maxVal, q25, q50, q75, _, _, _, _, _, _, _, _, _, _, _,
      _, hrun⟩ := Stats_run lib data w h
    exact ⟨final, _, hrun, rfl⟩
  refine ⟨hempty, hfull, ?_, ?_⟩
  · constructor
    · rintro ⟨e, he⟩
      by_contra hne
      obtain ⟨final, lines, hrun, _⟩ := hfull hne
      rw [hrun] at he
      cases he
    · intro h
      exact ⟨EmptyInputErr, by rw [(hempty h).2]⟩
  · constructor
    · rintro ⟨final, hfinal⟩ h
      rw [(hempty h).2] at hfinal
      cases hfinal
    · intro h
      obtain ⟨final, lines, hrun, _⟩ := hfull h
      exact ⟨final, by rw [hrun]⟩

/-- C7, on concrete runs: the empty sequence and a sequence of three samples. -/
theorem Stats_exits_iff_empty_witness :
    Stats sampleLib [] World.init
      = (Res.fatal EmptyInputErr, ⟨[LogLine.fatal EmptyInputErr], []⟩) ∧
    (Stats sampleLib [3, 1, 2] World.init).1 = Res.ok [1, 2, 3] ∧
    (Stats sampleLib [3, 1, 2] World.init).2.log.length = 12 ∧
    ∃ e, (Stats sampleLib [] World.init).1 = Res.fatal e :=
  ⟨rfl, rfl, rfl, (Stats_exits_iff_empty sampleLib [] World.init).2.2.1.mpr rfl⟩

/-- C10, as stated, fails on a slice that holds NaN: `Stats` returns, having logged its
twelve lines, and the slice 3, NaN, 1 is left exactly as it was, although its last
element is less than its first: the sort compares with `<`, which is false against NaN,
so nothing moves. -/
theorem Stats_nan_slice_counterexample :
    ([F64.fin 3, F64.nan, F64.fin 1] : List F64) ≠ [] ∧
    Stats nanLib [F64.fin 3, F64.nan, F64.fin 1] World.init
      = (Res.ok [F64.fin 3, F64.nan, F64.fin 1],
          ⟨[LogLine.printfF "Mean: %0.2f" F64.nan,
            LogLine.printfF "Mode val: %0.2f" (F64.fin 3),
            LogLine.printfF "Mode cnt: %0.2f" (F64.fin 1),
            LogLine.printfF "Median: %0.2f" (F64.fin 1),
            LogLine.printfF "Min: %0.2f" (F64.fin 1),
            LogLine.printfF "Max: %0.2f" (F64.fin 3),
            LogLine.printfF "Range: %0.2f" (F64.fin 2),
            LogLine.printfF "Variance: %0.2f" F64.nan,
            LogLine.printfF "Standard Deviation: %0.2f" F64.nan,
            LogLine.printfF "25%% quantile: %0.2f" F64.nan,
            LogLine.printfF "50%% quantile: %0.2f" F64.nan,
            LogLine.printfF "75%% quantile: %0.2f" F64.nan], []⟩) ∧
    Float64.lt (F64.fin 1) (F64.fin 3) = true ∧
    Float64sAreSorted [F64.fin 3, F64.nan, F64.fin 1] = false :=
  ⟨by decide, rfl, rfl, rfl⟩

/-- C10, amended: on a slice that holds no NaN `Stats` sorts the caller's slice in place.
For every non-empty `data` of such values, when
`Stats` returns the slice holds an ascending-sorted permutation of its original elements
(so it is unchanged only if it was sorted already), while the mean, mode, median,
minimum, maximum, range, variance and standard deviation that were logged are those of
the slice in its original order; only the three quantiles are taken from the sorted
slice. -/
theorem Stats_sorts_argument_in_place (lib : Lib F) (data : List F) (w : World F)
    (hdata : data ≠ []) :
    ∃ final medianVal minVal maxVal quant25 quant50 quant75,
      (Stats lib data w).1 = Res.ok final ∧
      final.Sorted (fun a b => a ≤ b) ∧ final.Perm data ∧
      (final = data ↔ data.Sorted (fun a b => a ≤ b)) ∧
      Median lib data = Except.ok medianVal ∧ Min data = Except.ok minVal ∧
      Max data = Except.ok maxVal ∧
      Quantile 25 100 final = Except.ok quant25 ∧
      Quantile 50 100 final = Except.ok quant50 ∧
      Quantile 75 100 final = Except.ok quant75 ∧
      (Stats lib data w).2.log = w.log ++
        [LogLine.printfF "Mean: %0.2f" (lib.statMean data),
         LogLine.printfF "Mode val: %0.2f" (lib.statMode data).1,
         LogLine.printfF "Mode cnt: %0.2f" (lib.statMode data).2,
         LogLine.printfF "Median: %0.2f" medianVal,
         LogLine.printfF "Min: %0.2f" minVal,
         LogLine.printfF "Max: %0.2f" maxVal,
         LogLine.printfF "Range: %0.2f" (lib.sub maxVal minVal),
         LogLine.printfF "Variance: %0.2f" (lib.statVariance data),
         LogLine.printfF "Standard Deviation: %0.2f" (lib.statStdDev data),
         LogLine.printfF "25%% quantile: %0.2f" quant25,
         LogLine.printfF "50%% quantile: %0.2f" quant50,
         LogLine.printfF "75%% quantile: %0.2f" quant75] := by
  obtain ⟨final, medianVal, minVal, maxVal, q25, q50, q75, hmed, hmin, hmax, hsorted, hperm,
    hq25, hq50, hq75, _, _, _, _, hrun⟩ := Stats_run lib data w hdata
  refine ⟨final, medianVal, minVal, maxVal, q25, q50, q75, by rw [hrun], hsorted, hperm, ?_,
    hmed, hmin, hmax, hq25, hq50, hq75, by rw [hrun]⟩
  constructor
  · intro h
    rw [← h]
    exact hsorted
  · intro h
    exact List.eq_of_perm_of_sorted hperm hsorted h

/-- C10, on a concrete run: the slice 3, 1, 2 is left as 1, 2, 3. -/
theorem Stats_sorts_argument_in_place_witness :
    ([3, 1, 2] : List Int) ≠ [] ∧
    (Stats sampleLib [3, 1, 2] World.init).1 = Res.ok [1, 2, 3] ∧
    ∃ final : List Int, (Stats sampleLib [3, 1, 2] World.init).1 = Res.ok final ∧
      final.Sorted (fun a b => a ≤ b) ∧ final.Perm [3, 1, 2] :=
  ⟨by decide, rfl,
    (Stats_sorts_argument_in_place sampleLib [3, 1, 2] World.init (by decide)).imp
      fun _ h => let ⟨_, _, _, _, _, _, hrun, hsorted, hperm, _⟩ := h; ⟨hrun, hsorted, hperm⟩⟩

end ReportClaims

end Tsp
